import Mathlib

/-!
Verification of the f289ctrl protocol codec and binary record decoders.

This development is a shallow embedding of the Rust sources:
  * `src/rawmea.rs`   — binary record decoders (measurements, saved records),
  * `src/proto/codec.rs` — the framing codec (`ProtocolCodec::decode` / `encode`),
  * `src/proto/command.rs`, `src/proto/response.rs` — command/response data model,
  * `src/measurement.rs` — the raw-to-domain translation of the live measurement.

Bytes are `UInt8`, byte buffers are `List UInt8`, machine integers are `Nat`/`Int`.
An IEEE-754 double is represented by its 64-bit pattern (`F64.bits`): both
`f64::from_be_bytes` and `f64::from_le_bytes` in the source are bit-level
reinterpretations, so the representation is exact and injective.
Fallible Rust code returns `PResult`, whose `panicked` constructor records a
Rust `panic!`/`assert!`/`unimplemented!` and whose `err` constructor records a
returned `std::io::Error`.
-/

namespace F289

/-- A 64-bit IEEE-754 double, represented by its bit pattern.
`bits` is the unsigned 64-bit integer whose big-endian bytes are the
byte representation of the float. -/
structure F64 where
  bits : Nat
  deriving DecidableEq, Repr

/-- `u16::from_le_bytes([a, b])`. -/
def u16FromLe (a b : UInt8) : Nat := a.toNat + 256 * b.toNat

/-- `i16::from_le_bytes([a, b])` (two's complement). -/
def i16FromLe (a b : UInt8) : Int :=
  let n := a.toNat + 256 * b.toNat
  if n < 32768 then (n : Int) else (n : Int) - 65536

/-- `f64::from_be_bytes`: fold the 8 bytes most-significant first. -/
def f64FromBeBytes (l : List UInt8) : F64 :=
  ⟨l.foldl (fun acc b => acc * 256 + b.toNat) 0⟩

/-- `f64::from_le_bytes`: least-significant byte first. -/
def f64FromLeBytes (l : List UInt8) : F64 :=
  f64FromBeBytes l.reverse

/-- `<[u8]>::swap(i, j)` on a list (in-bounds at every use site). -/
def listSwap (l : List UInt8) (i j : Nat) : List UInt8 :=
  (l.set i (l.getD j 0)).set j (l.getD i 0)

/-- The byte-pair permutation of `read_double` (rawmea.rs:89-97) applied to an
8-byte buffer, followed by `f64::from_be_bytes`. -/
def readDoubleBytes (data : List UInt8) : F64 :=
  let data := listSwap data 0 3
  let data := listSwap data 1 2
  let data := listSwap data 4 7
  let data := listSwap data 5 6
  f64FromBeBytes data

/-- Rust panic sites reachable from the codec and record decoders.
Each constructor stands for one `panic!` / `assert!` / `unimplemented!`
message in the source; `noCommandCalled` is `panic!("No command called")`
(codec.rs:594). -/
inductive PanicMsg where
  | noCommandCalled
  | assertValuesNonEmpty
  | assertMapCount
  | assertMinLen
  | assertReadingsRemaining
  | assertNameBytes
  | assertNameDelimiter
  | notImplemented
  deriving DecidableEq, Repr

/-- `std::io::Error` values produced by the codec and record decoders. -/
inductive DecodeErr where
  | responseCodeExpected
  | unknownResponseCode (code : UInt8)
  | eof
  | invalidUtf8
  | parseIntError
  | invalidIdData
  | invalidQslsData
  | notBinaryMarker
  | readingsArity
  deriving DecidableEq, Repr

/-- Outcome of fallible Rust code: `Ok`, `Err(io::Error)`, or a panic. -/
inductive PResult (α : Type) where
  | ok (a : α)
  | err (e : DecodeErr)
  | panicked (p : PanicMsg)
  deriving DecidableEq, Repr

def PResult.bind {α β : Type} : PResult α → (α → PResult β) → PResult β
  | .ok a, f => f a
  | .err e, _ => .err e
  | .panicked p, _ => .panicked p

instance : Monad PResult where
  pure := PResult.ok
  bind := PResult.bind

/-- `Cursor::read_exact` into an `n`-byte buffer: the first `n` bytes and the
remaining input, or `UnexpectedEof`. -/
def readExact : Nat → List UInt8 → PResult (List UInt8 × List UInt8)
  | 0, l => .ok ([], l)
  | _ + 1, [] => .err .eof
  | n + 1, b :: l =>
    match readExact n l with
    | .ok (bs, rest) => .ok (b :: bs, rest)
    | .err e => .err e
    | .panicked p => .panicked p

/-- `cur.read_u16::<LittleEndian>()`. -/
def readU16Le : List UInt8 → PResult (Nat × List UInt8)
  | a :: b :: rest => .ok (u16FromLe a b, rest)
  | _ => .err .eof

/-- `cur.read_i16::<LittleEndian>()`. -/
def readI16Le : List UInt8 → PResult (Int × List UInt8)
  | a :: b :: rest => .ok (i16FromLe a b, rest)
  | _ => .err .eof

/-- `cur.read_f64::<LittleEndian>()`. -/
def readF64Le : List UInt8 → PResult (F64 × List UInt8)
  | b0 :: b1 :: b2 :: b3 :: b4 :: b5 :: b6 :: b7 :: rest =>
    .ok (f64FromLeBytes [b0, b1, b2, b3, b4, b5, b6, b7], rest)
  | _ => .err .eof

/-- `read_double` (rawmea.rs:89-97): read 8 raw bytes, swap the byte pairs
`(0,3)`, `(1,2)`, `(4,7)`, `(5,6)` in place, then `f64::from_be_bytes`. -/
def read_double : List UInt8 → PResult (F64 × List UInt8)
  | b0 :: b1 :: b2 :: b3 :: b4 :: b5 :: b6 :: b7 :: rest =>
    .ok (readDoubleBytes [b0, b1, b2, b3, b4, b5, b6, b7], rest)
  | _ => .err .eof

/-! Sizes from rawmea.rs. -/

def BIN_MARKER_LEN : Nat := 2
def MEA_METADATA_LEN : Nat := 34
def SAVED_MEA_METADATA_LEN : Nat := 38
def SAVED_MINMAX_METADATA_LEN : Nat := 54
def SAVED_RECORDING_METADATA_LEN : Nat := 78
def READING_LEN : Nat := 30
def SAVED_RECORD_READINGS_LEN : Nat := 26 + READING_LEN + 3 * READING_LEN
def EOL_LEN : Nat := 1

/-- `RawReading` (rawmea.rs:99-110), a fixed 30-byte binary record. -/
structure RawReading where
  reading_id : Nat
  value : F64
  unit : Nat
  unit_multiplier : Int
  decimals : Int
  display_digits : Int
  state : Nat
  attrib : Nat
  ts : F64
  deriving DecidableEq, Repr

/-- `RawReading::try_from(&[u8])` (rawmea.rs:112-140). -/
def RawReading.tryFrom (value : List UInt8) : PResult RawReading := do
  let (reading_id, cur) ← readU16Le value
  let (v, cur) ← read_double cur
  let (unit, cur) ← readU16Le cur
  let (unit_multiplier, cur) ← readI16Le cur
  let (decimals, cur) ← readI16Le cur
  let (display_digits, cur) ← readI16Le cur
  let (state, cur) ← readU16Le cur
  let (attrib, cur) ← readU16Le cur
  let (ts, _) ← read_double cur
  pure { reading_id, value := v, unit, unit_multiplier, decimals,
         display_digits, state, attrib, ts }

/-- The reading loop `for _ in 0..readings_cnt` shared by every record decoder:
read `n` 30-byte blocks, decoding each with `RawReading::try_from`. -/
def readReadings : Nat → List UInt8 → PResult (List RawReading × List UInt8)
  | 0, cur => .ok ([], cur)
  | n + 1, cur => do
    let (buf, cur) ← readExact READING_LEN cur
    let reading ← RawReading.tryFrom buf
    let (readings, cur) ← readReadings n cur
    pure (reading :: readings, cur)

/-- `RawMeasurement` (rawmea.rs:20-33). -/
structure RawMeasurement where
  pri_function : Nat
  sec_function : Nat
  auto_range : Nat
  unit : Nat
  range_max : F64
  unit_multiplier : Int
  bolt : Nat
  ts : F64
  modes : Nat
  un1 : Nat
  readings : List RawReading
  deriving DecidableEq, Repr

/-- `RawMeasurement::try_from(&[u8])` (rawmea.rs:35-87).  Note that `ts` is
read with `cur.read_f64::<LittleEndian>()` (line 51), unlike every other
floating field, which goes through `read_double`. -/
def RawMeasurement.tryFrom (value : List UInt8) : PResult RawMeasurement :=
  if value.length < BIN_MARKER_LEN + MEA_METADATA_LEN then .panicked .assertMinLen
  else if value.take 2 = [35, 48] then do
    let cur := value.drop 2
    let (pri_function, cur) ← readU16Le cur
    let (sec_function, cur) ← readU16Le cur
    let (auto_range, cur) ← readU16Le cur
    let (unit, cur) ← readU16Le cur
    let (range_max, cur) ← read_double cur
    let (unit_multiplier, cur) ← readI16Le cur
    let (bolt, cur) ← readU16Le cur
    let (ts, cur) ← readF64Le cur
    let (mode, cur) ← readU16Le cur
    let (un1, cur) ← readU16Le cur
    let (readings_cnt, cur) ← readU16Le cur
    if cur.length ≠ readings_cnt * READING_LEN + 1 then .panicked .assertReadingsRemaining
    else do
      let (readings, _) ← readReadings readings_cnt cur
      pure { pri_function, sec_function, auto_range, unit, range_max,
             unit_multiplier, bolt, ts, modes := mode, un1, readings }
  else .err .notBinaryMarker

/-- `read_saved_name` (rawmea.rs:186-193): `read_until(b'\r')`, assert the
delimiter was found, drop it, and decode the name lossily. -/
def read_saved_name (cur : List UInt8) : PResult (List UInt8 × List UInt8) :=
  if cur.isEmpty then .panicked .assertNameBytes
  else
    match cur.findIdx? (fun b => b = 13) with
    | some idx => .ok (cur.take idx, cur.drop (idx + 1))
    | none => .panicked .assertNameDelimiter

/-- `RawSavedMeasurement` (rawmea.rs:142-163); the name is kept as its raw
bytes (the source converts them with `String::from_utf8_lossy`). -/
structure RawSavedMeasurement where
  seq_no : Nat
  un1 : Nat
  pri_function : Nat
  sec_function : Nat
  auto_range : Nat
  unit : Nat
  range_max : F64
  unit_multiplier : Int
  bolt : Nat
  un2 : Nat
  un3 : Nat
  un4 : Nat
  un5 : Nat
  modes : Nat
  un6 : Nat
  readings : List RawReading
  name : List UInt8
  deriving DecidableEq, Repr

/-- `RawSavedMeasurement::can_parse` (rawmea.rs:165-184): the non-destructive
length probe.  The readings count sits in the last two bytes of the fixed
metadata; the probe then looks for the first `\r` after the reading blocks.
The Rust return type is `io::Result<Option<usize>>` but the function never
errors, so it is embedded as `Option Nat`. -/
def RawSavedMeasurement.canParse (buf : List UInt8) : Option Nat :=
  if BIN_MARKER_LEN + SAVED_MEA_METADATA_LEN ≤ buf.length then
    let readings := u16FromLe (buf.getD (BIN_MARKER_LEN + SAVED_MEA_METADATA_LEN - 2) 0)
                             (buf.getD (BIN_MARKER_LEN + SAVED_MEA_METADATA_LEN - 1) 0)
    let total := BIN_MARKER_LEN + SAVED_MEA_METADATA_LEN + readings * READING_LEN
    if total < buf.length then
      match (buf.drop total).findIdx? (fun b => b = 13) with
      | some idx => some (total + idx + EOL_LEN)
      | none => none
    else none
  else none

/-- `RawSavedMeasurement::try_from(&[u8])` (rawmea.rs:195-264). -/
def RawSavedMeasurement.tryFrom (value : List UInt8) : PResult RawSavedMeasurement :=
  if value.length < BIN_MARKER_LEN + SAVED_MEA_METADATA_LEN then .panicked .assertMinLen
  else if value.take 2 = [35, 48] then do
    let cur := value.drop 2
    let (seq_no, cur) ← readU16Le cur
    let (un1, cur) ← readU16Le cur
    let (pri_function, cur) ← readU16Le cur
    let (sec_function, cur) ← readU16Le cur
    let (auto_range, cur) ← readU16Le cur
    let (unit, cur) ← readU16Le cur
    let (range_max, cur) ← read_double cur
    let (unit_multiplier, cur) ← readI16Le cur
    let (bolt, cur) ← readU16Le cur
    let (un2, cur) ← readU16Le cur
    let (un3, cur) ← readU16Le cur
    let (un4, cur) ← readU16Le cur
    let (un5, cur) ← readU16Le cur
    let (mode, cur) ← readU16Le cur
    let (un6, cur) ← readU16Le cur
    let (readings_cnt, cur) ← readU16Le cur
    let (readings, cur) ← readReadings readings_cnt cur
    let (name, _) ← read_saved_name cur
    pure { seq_no, un1, pri_function, sec_function, auto_range, unit,
           range_max, unit_multiplier, bolt, un2, un3, un4, un5,
           modes := mode, un6, readings, name }
  else .err .notBinaryMarker

/-- `RawSavedMinMaxMeasurement` (rawmea.rs:266-286); also used for peak
records via `type RawSavedPeakMeasurement = RawSavedMinMaxMeasurement`. -/
structure RawSavedMinMaxMeasurement where
  seq_no : Nat
  un1 : Nat
  ts1 : F64
  ts2 : F64
  pri_function : Nat
  sec_function : Nat
  auto_range : Nat
  unit : Nat
  range_max : F64
  unit_multiplier : Int
  bolt : Nat
  ts3 : F64
  modes : Nat
  un2 : Nat
  readings : List RawReading
  name : List UInt8
  deriving DecidableEq, Repr

/-- `RawSavedMinMaxMeasurement::can_parse` (rawmea.rs:288-308). -/
def RawSavedMinMaxMeasurement.canParse (buf : List UInt8) : Option Nat :=
  if BIN_MARKER_LEN + SAVED_MINMAX_METADATA_LEN ≤ buf.length then
    let readings := u16FromLe (buf.getD (BIN_MARKER_LEN + SAVED_MINMAX_METADATA_LEN - 2) 0)
                             (buf.getD (BIN_MARKER_LEN + SAVED_MINMAX_METADATA_LEN - 1) 0)
    let total := BIN_MARKER_LEN + SAVED_MINMAX_METADATA_LEN + readings * READING_LEN
    if total < buf.length then
      match (buf.drop total).findIdx? (fun b => b = 13) with
      | some idx => some (total + idx + EOL_LEN)
      | none => none
    else none
  else none

/-- `RawSavedMinMaxMeasurement::try_from(&[u8])` (rawmea.rs:310-374). -/
def RawSavedMinMaxMeasurement.tryFrom (value : List UInt8) :
    PResult RawSavedMinMaxMeasurement :=
  if value.length < BIN_MARKER_LEN + SAVED_MINMAX_METADATA_LEN then .panicked .assertMinLen
  else if value.take 2 = [35, 48] then do
    let cur := value.drop 2
    let (seq_no, cur) ← readU16Le cur
    let (un1, cur) ← readU16Le cur
    let (ts1, cur) ← read_double cur
    let (ts2, cur) ← read_double cur
    let (pri_function, cur) ← readU16Le cur
    let (sec_function, cur) ← readU16Le cur
    let (auto_range, cur) ← readU16Le cur
    let (unit, cur) ← readU16Le cur
    let (range_max, cur) ← read_double cur
    let (unit_multiplier, cur) ← readI16Le cur
    let (bolt, cur) ← readU16Le cur
    let (ts3, cur) ← read_double cur
    let (mode, cur) ← readU16Le cur
    let (un2, cur) ← readU16Le cur
    let (readings_cnt, cur) ← readU16Le cur
    let (readings, cur) ← readReadings readings_cnt cur
    let (name, _) ← read_saved_name cur
    pure { seq_no, un1, ts1, ts2, pri_function, sec_function, auto_range,
           unit, range_max, unit_multiplier, bolt, ts3, modes := mode, un2,
           readings, name }
  else .err .notBinaryMarker

/-- `RawSavedRecordingSessionInfo` (rawmea.rs:379-408). -/
structure RawSavedRecordingSessionInfo where
  seq_no : Nat
  un1 : Nat
  start_ts : F64
  end_ts : F64
  sample_interval : F64
  event_threshold : F64
  reading_index : Nat
  un2 : Nat
  num_samples : Nat
  un3 : Nat
  pri_function : Nat
  sec_function : Nat
  auto_range : Nat
  unit : Nat
  range_max : F64
  unit_multiplier : Int
  bolt : Nat
  un4 : Nat
  un5 : Nat
  un6 : Nat
  un7 : Nat
  modes : Nat
  un8 : Nat
  readings : List RawReading
  name : List UInt8
  deriving DecidableEq, Repr

/-- `RawSavedRecordingSessionInfo::try_from(&[u8])` (rawmea.rs:410-492). -/
def RawSavedRecordingSessionInfo.tryFrom (value : List UInt8) :
    PResult RawSavedRecordingSessionInfo :=
  if value.length < BIN_MARKER_LEN + SAVED_RECORDING_METADATA_LEN then .panicked .assertMinLen
  else if value.take 2 = [35, 48] then do
    let cur := value.drop 2
    let (seq_no, cur) ← readU16Le cur
    let (un1, cur) ← readU16Le cur
    let (start_ts, cur) ← read_double cur
    let (end_ts, cur) ← read_double cur
    let (sample_interval, cur) ← read_double cur
    let (event_threshold, cur) ← read_double cur
    let (reading_index, cur) ← readU16Le cur
    let (un2, cur) ← readU16Le cur
    let (num_samples, cur) ← readU16Le cur
    let (un3, cur) ← readU16Le cur
    let (pri_function, cur) ← readU16Le cur
    let (sec_function, cur) ← readU16Le cur
    let (auto_range, cur) ← readU16Le cur
    let (unit, cur) ← readU16Le cur
    let (range_max, cur) ← read_double cur
    let (unit_multiplier, cur) ← readI16Le cur
    let (bolt, cur) ← readU16Le cur
    let (un4, cur) ← readU16Le cur
    let (un5, cur) ← readU16Le cur
    let (un6, cur) ← readU16Le cur
    let (un7, cur) ← readU16Le cur
    let (mode, cur) ← readU16Le cur
    let (un8, cur) ← readU16Le cur
    let (readings_cnt, cur) ← readU16Le cur
    let (readings, cur) ← readReadings readings_cnt cur
    let (name, _) ← read_saved_name cur
    pure { seq_no, un1, start_ts, end_ts, sample_interval, event_threshold,
           reading_index, un2, num_samples, un3, pri_function, sec_function,
           auto_range, unit, range_max, unit_multiplier, bolt, un4, un5, un6,
           un7, modes := mode, un8, readings, name }
  else .err .notBinaryMarker

/-- `RawSavedRecordingSessionInfo::can_parse` (rawmea.rs:494-514). -/
def RawSavedRecordingSessionInfo.canParse (buf : List UInt8) : Option Nat :=
  if BIN_MARKER_LEN + SAVED_RECORDING_METADATA_LEN ≤ buf.length then
    let readings := u16FromLe (buf.getD (BIN_MARKER_LEN + SAVED_RECORDING_METADATA_LEN - 2) 0)
                             (buf.getD (BIN_MARKER_LEN + SAVED_RECORDING_METADATA_LEN - 1) 0)
    let total := BIN_MARKER_LEN + SAVED_RECORDING_METADATA_LEN + readings * READING_LEN
    if total < buf.length then
      match (buf.drop total).findIdx? (fun b => b = 13) with
      | some idx => some (total + idx + EOL_LEN)
      | none => none
    else none
  else none

/-- `RawSessionRecordReadings` (rawmea.rs:516-527). -/
structure RawSessionRecordReadings where
  start_ts : F64
  end_ts : F64
  span_readings : List RawReading
  sampling : Nat
  un2 : Nat
  fixed_reading : RawReading
  record_type : Nat
  stable : Nat
  transient_state : Nat
  deriving DecidableEq, Repr

/-- `RawSessionRecordReadings::try_from(&[u8])` (rawmea.rs:529-589); the
3-element `span_readings` array is a list whose arity conversion mirrors the
source's `try_into`. -/
def RawSessionRecordReadings.tryFrom (value : List UInt8) :
    PResult RawSessionRecordReadings :=
  if value.length < BIN_MARKER_LEN + SAVED_RECORDING_METADATA_LEN then .panicked .assertMinLen
  else if value.take 2 = [35, 48] then do
    let cur := value.drop 2
    let (start_ts, cur) ← read_double cur
    let (end_ts, cur) ← read_double cur
    let (readings, cur) ← readReadings 3 cur
    let (sampling, cur) ← readU16Le cur
    let (un2, cur) ← readU16Le cur
    let (buf, cur) ← readExact READING_LEN cur
    let reading2 ← RawReading.tryFrom buf
    let (record_type, cur) ← readU16Le cur
    let (stable, cur) ← readU16Le cur
    let (transient_state, _) ← readU16Le cur
    if readings.length = 3 then
      pure { start_ts, end_ts, span_readings := readings, sampling, un2,
             fixed_reading := reading2, record_type, stable, transient_state }
    else .err .readingsArity
  else .err .notBinaryMarker

/-- `RawSessionRecordReadings::can_parse` (rawmea.rs:591-605): the QSRR frame
has fixed length `BIN_MARKER_LEN + SAVED_RECORD_READINGS_LEN + EOL_LEN = 149`. -/
def RawSessionRecordReadings.canParse (buf : List UInt8) : Option Nat :=
  let total := BIN_MARKER_LEN + SAVED_RECORD_READINGS_LEN
  if total + EOL_LEN ≤ buf.length then some (total + EOL_LEN)
  else none

/-! ## IEEE-754 semantics needed by the domain translation

`Measurement::from` (measurement.rs:700) tests `value.0.ts as isize != 0 &&
value.0.ts.is_normal()`.  Both operations are defined here on the bit
pattern, following the IEEE-754 binary64 format: sign bit 63, 11 exponent
bits 52..62, 52 fraction bits 0..51. -/

/-- Sign bit of a double (true = negative). -/
def F64.sign (x : F64) : Bool := x.bits / 2 ^ 63 % 2 = 1

/-- Biased 11-bit exponent field. -/
def F64.exponent (x : F64) : Nat := x.bits / 2 ^ 52 % 2 ^ 11

/-- 52-bit fraction field. -/
def F64.fraction (x : F64) : Nat := x.bits % 2 ^ 52

/-- `f64::is_nan`: maximal exponent and non-zero fraction. -/
def F64.isNan (x : F64) : Bool := x.exponent = 2047 ∧ x.fraction ≠ 0

/-- `f64::is_infinite`: maximal exponent and zero fraction. -/
def F64.isInfinite (x : F64) : Bool := x.exponent = 2047 ∧ x.fraction = 0

/-- `f64::is_normal`: neither zero, subnormal, infinite, nor NaN, i.e. the
biased exponent is strictly between 0 and 2047. -/
def F64.isNormal (x : F64) : Bool := 0 < x.exponent ∧ x.exponent < 2047

/-- `+0.0` or `-0.0`. -/
def F64.isZero (x : F64) : Bool := x.exponent = 0 ∧ x.fraction = 0

/-- The integer part of the double's magnitude (truncation toward zero).
For a biased exponent `e > 0` the magnitude is `(2^52 + fraction) * 2^(e-1075)`;
for `e = 0` (zero/subnormal) it is `fraction * 2^(-1074)`.  Multiplying by
`2^e` (or `2` when `e = 0`) and dividing by `2^1075` with truncating `Nat`
division computes the floor of the magnitude in one expression. -/
def F64.truncMagnitude (x : F64) : Nat :=
  (if x.exponent = 0 then 2 * x.fraction else (2 ^ 52 + x.fraction) * 2 ^ x.exponent) / 2 ^ 1075

/-- Rust `f64 as isize` on a 64-bit target: truncate toward zero, saturate at
the `isize` bounds, and map NaN to 0. -/
def F64.toIsizeSat (x : F64) : Int :=
  if x.isNan then 0
  else
    let mag : Int := if x.isInfinite then 2 ^ 63 else (x.truncMagnitude : Int)
    if x.sign then max (-mag) (-(2 ^ 63)) else min mag (2 ^ 63 - 1)

/-- The `ts` field computation of `Measurement::from` (measurement.rs:700-704):
`if raw.ts as isize != 0 && raw.ts.is_normal() { Some(timestamp_to_datetime(raw.ts)) } else { None }`.
`timestamp_to_datetime` converts the seconds value to a wall-clock datetime;
since only presence or absence of the timestamp is at issue here, the datetime
is represented by the raw seconds value it is computed from. -/
def measurementTs (ts : F64) : Option F64 :=
  if ts.toIsizeSat ≠ 0 ∧ ts.isNormal then some ts else none

/-! ## Command and response data model (proto/command.rs, proto/response.rs)

`Duration` parameters are their `as_secs()` value, `usize`/`u64`/`u16`/`u8`
parameters are `Nat`, `i16` is `Int`. -/

inductive ClearMemory where
  | All | Measurements | MinMax | Peak | Recordings
  deriving DecidableEq, Repr

inductive DezibelReference where
  | Ref4 | Ref8 | Ref16 | Ref25 | Ref32 | Ref50 | Ref75 | Ref600 | Ref1000 | Custom
  deriving DecidableEq, Repr

inductive DigitCount where
  | Digit4 | Digit5
  deriving DecidableEq, Repr

inductive Language where
  | German | English | French | Italian | Spanish | Japanese | Chinese
  deriving DecidableEq, Repr

inductive DateFormat where
  | DD_MM | MM_DD
  deriving DecidableEq, Repr

inductive TimeFormat where
  | Time12 | Time24
  deriving DecidableEq, Repr

inductive NumericFormat where
  | Point | Comma
  deriving DecidableEq, Repr

/-- `Command` (proto/command.rs:203-274). -/
inductive Command where
  | Id
  | QueryMap (name : String)
  | SetBacklightTimeout (d : Nat)
  | GetBacklightTimeout
  | SetDevicePowerOff (d : Nat)
  | GetDevicePowerOff
  | GetOperator
  | SetOperator (s : String)
  | GetCompany
  | SetCompany (s : String)
  | GetSite
  | SetSite (s : String)
  | GetContact
  | SetContact (s : String)
  | GetBeeper
  | SetBeeper (b : Bool)
  | GetSmoothing
  | SetSmoothing (b : Bool)
  | GetClock
  | SetClock (n : Nat)
  | GetSaveName (slot : Nat)
  | SetSaveName (slot : Nat) (name : String)
  | GetMemoryStat
  | GetMeasurementBinary
  | QuerySavedMeasurement (idx : Nat)
  | QueryMinMaxSessionInfo (idx : Nat)
  | QueryPeakSessionInfo (idx : Nat)
  | QueryRecordedSessionInfo (idx : Nat)
  | QuerySessionRecordReadings (reading_idx sample_idx : Nat)
  | Clear (mem : ClearMemory)
  | ResetDevice
  | GetCustomDbm
  | SetCustomDbm (n : Nat)
  | GetDigitCount
  | SetDigitCount (d : DigitCount)
  | GetAutoHoldEventThreshold
  | SetAutoHoldEventThreshold (n : Nat)
  | GetRecordingEventThreshold
  | SetRecordingEventThreshold (n : Nat)
  | GetLanguage
  | SetLanguage (l : Language)
  | GetDateFormat
  | SetDateFormat (f : DateFormat)
  | GetTimeFormat
  | SetTimeFormat (f : TimeFormat)
  | GetNumFormat
  | SetNumFormat (f : NumericFormat)
  | GetDbmRef
  | SetDbmRef (r : DezibelReference)
  | GetTempOffset
  | SetTempOffset (n : Int)
  deriving Repr

/-- An injective flat encoding of `Command`, used only to build a
`DecidableEq` instance whose term stays shallow. -/
structure CommandKey where
  tag : Nat
  n1 : Option Nat := none
  n2 : Option Nat := none
  i1 : Option Int := none
  s1 : Option String := none
  b1 : Option Bool := none
  cm : Option ClearMemory := none
  dc : Option DigitCount := none
  lg : Option Language := none
  df : Option DateFormat := none
  tf : Option TimeFormat := none
  nf : Option NumericFormat := none
  dr : Option DezibelReference := none
  deriving DecidableEq

def Command.key : Command → CommandKey
  | .Id => { tag := 0 }
  | .QueryMap s => { tag := 1, s1 := some s }
  | .SetBacklightTimeout d => { tag := 2, n1 := some d }
  | .GetBacklightTimeout => { tag := 3 }
  | .SetDevicePowerOff d => { tag := 4, n1 := some d }
  | .GetDevicePowerOff => { tag := 5 }
  | .GetOperator => { tag := 6 }
  | .SetOperator s => { tag := 7, s1 := some s }
  | .GetCompany => { tag := 8 }
  | .SetCompany s => { tag := 9, s1 := some s }
  | .GetSite => { tag := 10 }
  | .SetSite s => { tag := 11, s1 := some s }
  | .GetContact => { tag := 12 }
  | .SetContact s => { tag := 13, s1 := some s }
  | .GetBeeper => { tag := 14 }
  | .SetBeeper b => { tag := 15, b1 := some b }
  | .GetSmoothing => { tag := 16 }
  | .SetSmoothing b => { tag := 17, b1 := some b }
  | .GetClock => { tag := 18 }
  | .SetClock n => { tag := 19, n1 := some n }
  | .GetSaveName slot => { tag := 20, n1 := some slot }
  | .SetSaveName slot name => { tag := 21, n1 := some slot, s1 := some name }
  | .GetMemoryStat => { tag := 22 }
  | .GetMeasurementBinary => { tag := 23 }
  | .QuerySavedMeasurement i => { tag := 24, n1 := some i }
  | .QueryMinMaxSessionInfo i => { tag := 25, n1 := some i }
  | .QueryPeakSessionInfo i => { tag := 26, n1 := some i }
  | .QueryRecordedSessionInfo i => { tag := 27, n1 := some i }
  | .QuerySessionRecordReadings i j => { tag := 28, n1 := some i, n2 := some j }
  | .Clear mem => { tag := 29, cm := some mem }
  | .ResetDevice => { tag := 30 }
  | .GetCustomDbm => { tag := 31 }
  | .SetCustomDbm n => { tag := 32, n1 := some n }
  | .GetDigitCount => { tag := 33 }
  | .SetDigitCount d => { tag := 34, dc := some d }
  | .GetAutoHoldEventThreshold => { tag := 35 }
  | .SetAutoHoldEventThreshold n => { tag := 36, n1 := some n }
  | .GetRecordingEventThreshold => { tag := 37 }
  | .SetRecordingEventThreshold n => { tag := 38, n1 := some n }
  | .GetLanguage => { tag := 39 }
  | .SetLanguage l => { tag := 40, lg := some l }
  | .GetDateFormat => { tag := 41 }
  | .SetDateFormat f => { tag := 42, df := some f }
  | .GetTimeFormat => { tag := 43 }
  | .SetTimeFormat f => { tag := 44, tf := some f }
  | .GetNumFormat => { tag := 45 }
  | .SetNumFormat f => { tag := 46, nf := some f }
  | .GetDbmRef => { tag := 47 }
  | .SetDbmRef r => { tag := 48, dr := some r }
  | .GetTempOffset => { tag := 49 }
  | .SetTempOffset n => { tag := 50, i1 := some n }

def Command.unkey (k : CommandKey) : Option Command :=
  match k.tag with
  | 0 => some .Id
  | 1 => k.s1.map .QueryMap
  | 2 => k.n1.map .SetBacklightTimeout
  | 3 => some .GetBacklightTimeout
  | 4 => k.n1.map .SetDevicePowerOff
  | 5 => some .GetDevicePowerOff
  | 6 => some .GetOperator
  | 7 => k.s1.map .SetOperator
  | 8 => some .GetCompany
  | 9 => k.s1.map .SetCompany
  | 10 => some .GetSite
  | 11 => k.s1.map .SetSite
  | 12 => some .GetContact
  | 13 => k.s1.map .SetContact
  | 14 => some .GetBeeper
  | 15 => k.b1.map .SetBeeper
  | 16 => some .GetSmoothing
  | 17 => k.b1.map .SetSmoothing
  | 18 => some .GetClock
  | 19 => k.n1.map .SetClock
  | 20 => k.n1.map .GetSaveName
  | 21 => k.n1.bind (fun slot => k.s1.map (fun nm => .SetSaveName slot nm))
  | 22 => some .GetMemoryStat
  | 23 => some .GetMeasurementBinary
  | 24 => k.n1.map .QuerySavedMeasurement
  | 25 => k.n1.map .QueryMinMaxSessionInfo
  | 26 => k.n1.map .QueryPeakSessionInfo
  | 27 => k.n1.map .QueryRecordedSessionInfo
  | 28 => k.n1.bind (fun i => k.n2.map (fun j => .QuerySessionRecordReadings i j))
  | 29 => k.cm.map .Clear
  | 30 => some .ResetDevice
  | 31 => some .GetCustomDbm
  | 32 => k.n1.map .SetCustomDbm
  | 33 => some .GetDigitCount
  | 34 => k.dc.map .SetDigitCount
  | 35 => some .GetAutoHoldEventThreshold
  | 36 => k.n1.map .SetAutoHoldEventThreshold
  | 37 => some .GetRecordingEventThreshold
  | 38 => k.n1.map .SetRecordingEventThreshold
  | 39 => some .GetLanguage
  | 40 => k.lg.map .SetLanguage
  | 41 => some .GetDateFormat
  | 42 => k.df.map .SetDateFormat
  | 43 => some .GetTimeFormat
  | 44 => k.tf.map .SetTimeFormat
  | 45 => some .GetNumFormat
  | 46 => k.nf.map .SetNumFormat
  | 47 => some .GetDbmRef
  | 48 => k.dr.map .SetDbmRef
  | 49 => some .GetTempOffset
  | 50 => k.i1.map .SetTempOffset
  | _ => none

theorem command_key_roundtrip (c : Command) : Command.unkey (Command.key c) = some c := by
  cases c <;> rfl

instance : DecidableEq Command := fun a b =>
  if h : Command.key a = Command.key b then
    .isTrue (by
      have hc := congrArg Command.unkey h
      rw [command_key_roundtrip, command_key_roundtrip] at hc
      exact Option.some.inj hc)
  else .isFalse (fun he => h (congrArg Command.key he))

/-- `ValueMap = HashMap<u16, String>` (device.rs:30), represented as an
association list with at most one entry per key. -/
abbrev ValueMap : Type := List (Nat × String)

/-- `HashMap::insert`: replace the entry for an existing key, otherwise append. -/
def valueMapInsert (m : ValueMap) (k : Nat) (v : String) : ValueMap :=
  if m.any (fun p => p.1 = k) then
    m.map (fun p => if p.1 = k then (k, v) else p)
  else m ++ [(k, v)]

/-- `HashMap::len`. -/
def valueMapLen (m : ValueMap) : Nat := m.length

/-- `Ident` (proto/response.rs:63-68). -/
structure Ident where
  model : String
  firmware : String
  serial : String
  deriving DecidableEq, Repr

/-- `MemoryStat` (proto/response.rs:93-99). -/
structure MemoryStat where
  recordings : Nat
  min_max : Nat
  peak : Nat
  measurement : Nat
  deriving DecidableEq, Repr

/-- `ResponsePayload` (proto/response.rs:27-61). -/
inductive ResponsePayload where
  | Id (id : Ident)
  | Map (m : ValueMap)
  | BacklightTimeout (secs : Nat)
  | DevicePowerOff (secs : Nat)
  | Operator (s : String)
  | Company (s : String)
  | Site (s : String)
  | Contact (s : String)
  | Clock (secs : Nat)
  | Beeper (state : Bool)
  | Smoothing (state : Bool)
  | SaveName (s : String)
  | MemoryStat (stat : MemoryStat)
  | MeasurementBinary (m : RawMeasurement)
  | SavedMeasurement (m : RawSavedMeasurement)
  | MinMaxSessionInfo (m : RawSavedMinMaxMeasurement)
  | PeakSessionInfo (m : RawSavedMinMaxMeasurement)
  | RecordedSessionInfo (m : RawSavedRecordingSessionInfo)
  | SessionRecordReading (m : RawSessionRecordReadings)
  | CustomDbm (n : Nat)
  | DigitCount (d : DigitCount)
  | AutoHoldEventThreshold (n : Nat)
  | RecordingEventThreshold (n : Nat)
  | Language (l : Language)
  | DateFormat (f : DateFormat)
  | TimeFormat (f : TimeFormat)
  | NumericFormat (f : NumericFormat)
  | DbmRef (r : DezibelReference)
  | TempOffset (n : Int)

/-- An injective flat encoding of `ResponsePayload`, used only to build a
`DecidableEq` instance whose term stays shallow. -/
structure PayloadKey where
  tag : Nat
  n1 : Option Nat := none
  i1 : Option Int := none
  s1 : Option String := none
  b1 : Option Bool := none
  idp : Option Ident := none
  mp : Option ValueMap := none
  msp : Option MemoryStat := none
  meap : Option RawMeasurement := none
  smp : Option RawSavedMeasurement := none
  mmp : Option RawSavedMinMaxMeasurement := none
  rsp : Option RawSavedRecordingSessionInfo := none
  srp : Option RawSessionRecordReadings := none
  dc : Option DigitCount := none
  lg : Option Language := none
  df : Option DateFormat := none
  tf : Option TimeFormat := none
  nf : Option NumericFormat := none
  dr : Option DezibelReference := none
  deriving DecidableEq

def ResponsePayload.key : ResponsePayload → PayloadKey
  | .Id id => { tag := 0, idp := some id }
  | .Map m => { tag := 1, mp := some m }
  | .BacklightTimeout secs => { tag := 2, n1 := some secs }
  | .DevicePowerOff secs => { tag := 3, n1 := some secs }
  | .Operator s => { tag := 4, s1 := some s }
  | .Company s => { tag := 5, s1 := some s }
  | .Site s => { tag := 6, s1 := some s }
  | .Contact s => { tag := 7, s1 := some s }
  | .Clock secs => { tag := 8, n1 := some secs }
  | .Beeper b => { tag := 9, b1 := some b }
  | .Smoothing b => { tag := 10, b1 := some b }
  | .SaveName s => { tag := 11, s1 := some s }
  | .MemoryStat st => { tag := 12, msp := some st }
  | .MeasurementBinary m => { tag := 13, meap := some m }
  | .SavedMeasurement m => { tag := 14, smp := some m }
  | .MinMaxSessionInfo m => { tag := 15, mmp := some m }
  | .PeakSessionInfo m => { tag := 16, mmp := some m }
  | .RecordedSessionInfo m => { tag := 17, rsp := some m }
  | .SessionRecordReading m => { tag := 18, srp := some m }
  | .CustomDbm n => { tag := 19, n1 := some n }
  | .DigitCount d => { tag := 20, dc := some d }
  | .AutoHoldEventThreshold n => { tag := 21, n1 := some n }
  | .RecordingEventThreshold n => { tag := 22, n1 := some n }
  | .Language l => { tag := 23, lg := some l }
  | .DateFormat f => { tag := 24, df := some f }
  | .TimeFormat f => { tag := 25, tf := some f }
  | .NumericFormat f => { tag := 26, nf := some f }
  | .DbmRef r => { tag := 27, dr := some r }
  | .TempOffset n => { tag := 28, i1 := some n }

def ResponsePayload.unkey (k : PayloadKey) : Option ResponsePayload :=
  match k.tag with
  | 0 => k.idp.map .Id
  | 1 => k.mp.map .Map
  | 2 => k.n1.map .BacklightTimeout
  | 3 => k.n1.map .DevicePowerOff
  | 4 => k.s1.map .Operator
  | 5 => k.s1.map .Company
  | 6 => k.s1.map .Site
  | 7 => k.s1.map .Contact
  | 8 => k.n1.map .Clock
  | 9 => k.b1.map .Beeper
  | 10 => k.b1.map .Smoothing
  | 11 => k.s1.map .SaveName
  | 12 => k.msp.map .MemoryStat
  | 13 => k.meap.map .MeasurementBinary
  | 14 => k.smp.map .SavedMeasurement
  | 15 => k.mmp.map .MinMaxSessionInfo
  | 16 => k.mmp.map .PeakSessionInfo
  | 17 => k.rsp.map .RecordedSessionInfo
  | 18 => k.srp.map .SessionRecordReading
  | 19 => k.n1.map .CustomDbm
  | 20 => k.dc.map .DigitCount
  | 21 => k.n1.map .AutoHoldEventThreshold
  | 22 => k.n1.map .RecordingEventThreshold
  | 23 => k.lg.map .Language
  | 24 => k.df.map .DateFormat
  | 25 => k.tf.map .TimeFormat
  | 26 => k.nf.map .NumericFormat
  | 27 => k.dr.map .DbmRef
  | 28 => k.i1.map .TempOffset
  | _ => none

theorem payload_key_roundtrip (p : ResponsePayload) :
    ResponsePayload.unkey (ResponsePayload.key p) = some p := by
  cases p <;> rfl

instance : DecidableEq ResponsePayload := fun a b =>
  if h : ResponsePayload.key a = ResponsePayload.key b then
    .isTrue (by
      have hc := congrArg ResponsePayload.unkey h
      rw [payload_key_roundtrip, payload_key_roundtrip] at hc
      exact Option.some.inj hc)
  else .isFalse (fun he => h (congrArg ResponsePayload.key he))

/-- `Response` (proto/response.rs:19-25). -/
inductive Response where
  | Success (payload : Option ResponsePayload)
  | SyntaxError
  | ExecutionError
  | NoData
  deriving DecidableEq

/-! ## UTF-8 and string helpers used by the codec -/

/-- A UTF-8 continuation byte (`0x80..=0xBF`). -/
def isCont (b : UInt8) : Bool := 128 ≤ b.toNat ∧ b.toNat ≤ 191

/-- UTF-8 decoding with the exact validity rules of Rust's `str::from_utf8`
(rejecting overlong forms, surrogates and values above `0x10FFFF`). -/
def utf8Decode : List UInt8 → Option (List Char)
  | [] => some []
  | b :: rest =>
    if b.toNat ≤ 127 then
      (utf8Decode rest).map (fun cs => Char.ofNat b.toNat :: cs)
    else if 194 ≤ b.toNat ∧ b.toNat ≤ 223 then
      match rest with
      | c1 :: rest2 =>
        if isCont c1 then
          (utf8Decode rest2).map
            (fun cs => Char.ofNat ((b.toNat - 192) * 64 + (c1.toNat - 128)) :: cs)
        else none
      | [] => none
    else if 224 ≤ b.toNat ∧ b.toNat ≤ 239 then
      match rest with
      | c1 :: c2 :: rest2 =>
        let lo1 : Nat := if b.toNat = 224 then 160 else 128
        let hi1 : Nat := if b.toNat = 237 then 159 else 191
        if lo1 ≤ c1.toNat ∧ c1.toNat ≤ hi1 ∧ isCont c2 then
          (utf8Decode rest2).map
            (fun cs =>
              Char.ofNat ((b.toNat - 224) * 4096 + (c1.toNat - 128) * 64 + (c2.toNat - 128)) :: cs)
        else none
      | _ => none
    else if 240 ≤ b.toNat ∧ b.toNat ≤ 244 then
      match rest with
      | c1 :: c2 :: c3 :: rest2 =>
        let lo1 : Nat := if b.toNat = 240 then 144 else 128
        let hi1 : Nat := if b.toNat = 244 then 143 else 191
        if lo1 ≤ c1.toNat ∧ c1.toNat ≤ hi1 ∧ isCont c2 ∧ isCont c3 then
          (utf8Decode rest2).map
            (fun cs =>
              Char.ofNat ((b.toNat - 240) * 262144 + (c1.toNat - 128) * 4096 +
                (c2.toNat - 128) * 64 + (c3.toNat - 128)) :: cs)
        else none
      | _ => none
    else none

/-- Rust `str::split(',')` on the character list: cut at every comma,
keeping empty pieces (`"a,,b"` gives three pieces, `""` gives one). -/
def splitOnComma : List Char → List (List Char)
  | [] => [[]]
  | c :: rest =>
    if c = Char.ofNat 44 then [] :: splitOnComma rest
    else
      match splitOnComma rest with
      | t :: ts => (c :: t) :: ts
      | [] => [[c]]

/-- `str::split(',').collect::<Vec<&str>>()` as strings. -/
def splitCommaStr (s : String) : List String :=
  (splitOnComma s.data).map String.mk

/-- `ProtocolCodec::convert_string` (codec.rs:39-43): UTF-8 decode or
`io::Error`. -/
def convert_string (payload : List UInt8) : PResult String :=
  match utf8Decode payload with
  | some cs => .ok (String.mk cs)
  | none => .err .invalidUtf8

/-- Rust `str::parse::<uN>`: an optional leading `+`, then one or more ASCII
digits, value within `0..=max`. -/
def rustParseNat (max : Nat) (s : String) : Option Nat :=
  let ds := match s.data with
    | c :: rest => if c = Char.ofNat 43 then rest else s.data
    | [] => []
  if ds.isEmpty then none
  else if ds.all Char.isDigit then
    let n := ds.foldl (fun a c => a * 10 + (c.toNat - 48)) 0
    if n ≤ max then some n else none
  else none

/-- Rust `str::parse::<iN>`: optional sign, digits, value within bounds. -/
def rustParseInt (lo hi : Int) (s : String) : Option Int :=
  let (neg, ds) := match s.data with
    | c :: rest =>
      if c = Char.ofNat 45 then (true, rest)
      else if c = Char.ofNat 43 then (false, rest)
      else (false, s.data)
    | [] => (false, [])
  if ds.isEmpty then none
  else if ds.all Char.isDigit then
    let n : Int := ds.foldl (fun a c => a * 10 + ((c.toNat : Int) - 48)) 0
    let v := if neg then -n else n
    if lo ≤ v ∧ v ≤ hi then some v else none
  else none

/-- `strip_string` (codec.rs:628-634): drop the first character and keep
`byte_length - 2` following characters (stripping a quoting convention). -/
def strip_string (s : String) : String :=
  String.mk ((s.data.drop 1).take (s.utf8ByteSize - 2))

/-- `Ident::try_from(&[u8])` (proto/response.rs:70-91). -/
def Ident.tryFrom (value : List UInt8) : PResult Ident := do
  let value ← convert_string value
  let values := splitCommaStr value
  if h : values.length = 3 then
    pure { model := values.get ⟨0, by omega⟩, firmware := values.get ⟨1, by omega⟩,
           serial := values.get ⟨2, by omega⟩ }
  else .err .invalidIdData

/-- `MemoryStat::try_from(&[u8])` (proto/response.rs:101-131). -/
def MemoryStat.tryFrom (value : List UInt8) : PResult MemoryStat := do
  let value ← convert_string value
  let values := splitCommaStr value
  if h : values.length = 4 then
    match rustParseNat (2 ^ 64 - 1) (values.get ⟨0, by omega⟩),
          rustParseNat (2 ^ 64 - 1) (values.get ⟨1, by omega⟩),
          rustParseNat (2 ^ 64 - 1) (values.get ⟨2, by omega⟩),
          rustParseNat (2 ^ 64 - 1) (values.get ⟨3, by omega⟩) with
    | some recordings, some min_max, some peak, some measurement =>
      pure { recordings, min_max, peak, measurement }
    | _, _, _, _ => .err .parseIntError
  else .err .invalidQslsData

/-- `chunks_exact(2)` over the token list, pairing adjacent elements and
dropping a trailing unpaired token. -/
def chunksExact2 {α : Type} : List α → List (α × α)
  | a :: b :: rest => (a, b) :: chunksExact2 rest
  | _ => []

/-- The map-table entry loop (codec.rs:119-125): parse each `code` as `u16`
and insert `(code, name)` into the value map. -/
def mapInsertAll : List (String × String) → ValueMap → PResult ValueMap
  | [], m => .ok m
  | (i, name) :: rest, m =>
    match rustParseNat 65535 i with
    | some id => mapInsertAll rest (valueMapInsert m id name)
    | none => .err .parseIntError

/-! ## The framing codec (proto/codec.rs) -/

/-- `ProtocolCodec` (codec.rs:28-31): the single mutable field is the last
encoded command. -/
structure ProtocolCodec where
  last_cmd : Option Command

def STATUS_LEN : Nat := 2

/-- Outcome of one `ProtocolCodec::decode` call.  `frame`/`incomplete`/`fail`
carry the inbound buffer as the call leaves it (`BytesMut` is mutated in
place by `split_to` in the source); `panicked` records a Rust panic. -/
inductive DecodeOut where
  | frame (r : Response) (buf : List UInt8)
  | incomplete (buf : List UInt8)
  | fail (e : DecodeErr) (buf : List UInt8)
  | panicked (p : PanicMsg)
  deriving DecidableEq

/-- `ProtocolCodec::get_payload` (codec.rs:34-37): the bytes strictly between
the 2-byte status and the next `\r`, if that `\r` has arrived. -/
def getPayload (src : List UInt8) : Option (List UInt8) :=
  ((src.drop 2).findIdx? (fun b => b = 13)).map (fun n => (src.drop 2).take n)

/-- The body of `ProtocolCodec::decode` (codec.rs:54-620) as a function of
the outstanding command and the buffered bytes.  Byte literals: `'\r'` = 13,
`'0'` = 48, `'1'` = 49, `'2'` = 50, `'5'` = 53, `'#'` = 35. -/
def decodeCore (last_cmd : Option Command) (src : List UInt8) : DecodeOut :=
  match src with
  | b0 :: b1 :: _ =>
    if b1 ≠ 13 then .fail .responseCodeExpected src
    else if b0 = 48 then
      match last_cmd with
      | some (Command.SetBacklightTimeout _)
      | some (Command.SetDevicePowerOff _)
      | some (Command.SetOperator _)
      | some (Command.SetCompany _)
      | some (Command.SetSite _)
      | some (Command.SetContact _)
      | some (Command.SetSaveName _ _)
      | some (Command.SetBeeper _)
      | some (Command.SetSmoothing _)
      | some (Command.Clear _)
      | some Command.ResetDevice
      | some (Command.SetCustomDbm _)
      | some (Command.SetDigitCount _)
      | some (Command.SetAutoHoldEventThreshold _)
      | some (Command.SetRecordingEventThreshold _)
      | some (Command.SetLanguage _)
      | some (Command.SetDateFormat _)
      | some (Command.SetTimeFormat _)
      | some (Command.SetNumFormat _)
      | some (Command.SetDbmRef _)
      | some (Command.SetTempOffset _)
      | some (Command.SetClock _) =>
        .frame (.Success none) (src.drop 2)
      | some Command.Id =>
        match getPayload src with
        | some payload =>
          let rest := src.drop (2 + payload.length + 1)
          match Ident.tryFrom payload with
          | .ok id => .frame (.Success (some (.Id id))) rest
          | .err e => .fail e rest
          | .panicked p => .panicked p
        | none => .incomplete src
      | some (Command.QueryMap _) =>
        match getPayload src with
        | some payload =>
          let rest := src.drop (2 + payload.length + 1)
          match utf8Decode payload with
          | none => .fail .invalidUtf8 rest
          | some cs =>
            let values := splitCommaStr (String.mk cs)
            if values.isEmpty then .panicked .assertValuesNonEmpty
            else
              match rustParseNat (2 ^ 64 - 1) (values.headD "") with
              | none => .fail .parseIntError rest
              | some c =>
                match mapInsertAll (chunksExact2 (values.drop 1)) [] with
                | .ok value_map =>
                  if c = valueMapLen value_map then
                    .frame (.Success (some (.Map value_map))) rest
                  else .panicked .assertMapCount
                | .err e => .fail e rest
                | .panicked p => .panicked p
        | none => .incomplete src
      | some Command.GetBacklightTimeout =>
        match getPayload src with
        | some payload =>
          match convert_string payload with
          | .ok line =>
            match rustParseNat (2 ^ 64 - 1) line with
            | some secs =>
              .frame (.Success (some (.BacklightTimeout secs))) (src.drop (2 + payload.length + 1))
            | none => .fail .parseIntError src
          | .err e => .fail e src
          | .panicked p => .panicked p
        | none => .incomplete src
      | some Command.GetDevicePowerOff =>
        match getPayload src with
        | some payload =>
          match convert_string payload with
          | .ok line =>
            match rustParseNat (2 ^ 64 - 1) line with
            | some secs =>
              .frame (.Success (some (.DevicePowerOff secs))) (src.drop (2 + payload.length + 1))
            | none => .fail .parseIntError src
          | .err e => .fail e src
          | .panicked p => .panicked p
        | none => .incomplete src
      | some Command.GetOperator =>
        match getPayload src with
        | some payload =>
          match convert_string payload with
          | .ok line =>
            .frame (.Success (some (.Operator (strip_string line)))) (src.drop (2 + payload.length + 1))
          | .err e => .fail e src
          | .panicked p => .panicked p
        | none => .incomplete src
      | some Command.GetCompany =>
        match getPayload src with
        | some payload =>
          match convert_string payload with
          | .ok line =>
            .frame (.Success (some (.Company (strip_string line)))) (src.drop (2 + payload.length + 1))
          | .err e => .fail e src
          | .panicked p => .panicked p
        | none => .incomplete src
      | some Command.GetSite =>
        match getPayload src with
        | some payload =>
          match convert_string payload with
          | .ok line =>
            .frame (.Success (some (.Site (strip_string line)))) (src.drop (2 + payload.length + 1))
          | .err e => .fail e src
          | .panicked p => .panicked p
        | none => .incomplete src
      | some Command.GetContact =>
        match getPayload src with
        | some payload =>
          match convert_string payload with
          | .ok line =>
            .frame (.Success (some (.Contact (strip_string line)))) (src.drop (2 + payload.length + 1))
          | .err e => .fail e src
          | .panicked p => .panicked p
        | none => .incomplete src
      | some Command.GetClock =>
        match getPayload src with
        | some payload =>
          match convert_string payload with
          | .ok line =>
            match rustParseNat (2 ^ 64 - 1) line with
            | some secs =>
              .frame (.Success (some (.Clock secs))) (src.drop (2 + payload.length + 1))
            | none => .fail .parseIntError src
          | .err e => .fail e src
          | .panicked p => .panicked p
        | none => .incomplete src
      | some Command.GetBeeper =>
        match getPayload src with
        | some payload =>
          match convert_string payload with
          | .ok line =>
            .frame (.Success (some (.Beeper (line = "ON")))) (src.drop (2 + payload.length + 1))
          | .err e => .fail e src
          | .panicked p => .panicked p
        | none => .incomplete src
      | some Command.GetSmoothing =>
        match getPayload src with
        | some payload =>
          match convert_string payload with
          | .ok line =>
            .frame (.Success (some (.Smoothing (line = "ON")))) (src.drop (2 + payload.length + 1))
          | .err e => .fail e src
          | .panicked p => .panicked p
        | none => .incomplete src
      | some Command.GetCustomDbm =>
        match getPayload src with
        | some payload =>
          match convert_string payload with
          | .ok line =>
            match rustParseNat 65535 line with
            | some d_bm =>
              .frame (.Success (some (.CustomDbm d_bm))) (src.drop (2 + payload.length + 1))
            | none => .fail .parseIntError src
          | .err e => .fail e src
          | .panicked p => .panicked p
        | none => .incomplete src
      | some Command.GetDigitCount =>
        match getPayload src with
        | some payload =>
          match convert_string payload with
          | .ok line =>
            match rustParseNat 255 line with
            | some digits =>
              match digits with
              | 4 => .frame (.Success (some (.DigitCount .Digit4))) (src.drop (2 + payload.length + 1))
              | 5 => .frame (.Success (some (.DigitCount .Digit5))) (src.drop (2 + payload.length + 1))
              | _ => .panicked .notImplemented
            | none => .fail .parseIntError src
          | .err e => .fail e src
          | .panicked p => .panicked p
        | none => .incomplete src
      | some Command.GetLanguage =>
        match getPayload src with
        | some payload =>
          match convert_string payload with
          | .ok line =>
            let rest := src.drop (2 + payload.length + 1)
            if line = "GERMAN" then .frame (.Success (some (.Language .German))) rest
            else if line = "ENLISH" then .frame (.Success (some (.Language .English))) rest
            else if line = "SPANISH" then .frame (.Success (some (.Language .Spanish))) rest
            else if line = "ITALIAN" then .frame (.Success (some (.Language .Italian))) rest
            else if line = "FRENCH" then .frame (.Success (some (.Language .French))) rest
            else if line = "JAPANESE" then .frame (.Success (some (.Language .Japanese))) rest
            else if line = "CHINESE" then .frame (.Success (some (.Language .Chinese))) rest
            else .panicked .notImplemented
          | .err e => .fail e src
          | .panicked p => .panicked p
        | none => .incomplete src
      | some Command.GetDateFormat =>
        match getPayload src with
        | some payload =>
          match convert_string payload with
          | .ok line =>
            let rest := src.drop (2 + payload.length + 1)
            if line = "MM_DD" then .frame (.Success (some (.DateFormat .MM_DD))) rest
            else if line = "DD_MM" then .frame (.Success (some (.DateFormat .DD_MM))) rest
            else .panicked .notImplemented
          | .err e => .fail e src
          | .panicked p => .panicked p
        | none => .incomplete src
      | some Command.GetTimeFormat =>
        match getPayload src with
        | some payload =>
          match convert_string payload with
          | .ok line =>
            let rest := src.drop (2 + payload.length + 1)
            match rustParseNat 255 line with
            | some v =>
              match v with
              | 12 => .frame (.Success (some (.TimeFormat .Time12))) rest
              | 24 => .frame (.Success (some (.TimeFormat .Time24))) rest
              | _ => .panicked .notImplemented
            | none => .fail .parseIntError rest
          | .err e => .fail e src
          | .panicked p => .panicked p
        | none => .incomplete src
      | some Command.GetNumFormat =>
        match getPayload src with
        | some payload =>
          match convert_string payload with
          | .ok line =>
            let rest := src.drop (2 + payload.length + 1)
            if line = "COMMA" then .frame (.Success (some (.NumericFormat .Comma))) rest
            else if line = "POINT" then .frame (.Success (some (.NumericFormat .Point))) rest
            else .panicked .notImplemented
          | .err e => .fail e src
          | .panicked p => .panicked p
        | none => .incomplete src
      | some Command.GetDbmRef =>
        match getPayload src with
        | some payload =>
          match convert_string payload with
          | .ok line =>
            match rustParseNat 65535 line with
            | some d_bm =>
              let rest := src.drop (2 + payload.length + 1)
              match d_bm with
              | 0 => .frame (.Success (some (.DbmRef .Custom))) rest
              | _ => .panicked .notImplemented
            | none => .fail .parseIntError src
          | .err e => .fail e src
          | .panicked p => .panicked p
        | none => .incomplete src
      | some Command.GetTempOffset =>
        match getPayload src with
        | some payload =>
          match convert_string payload with
          | .ok line =>
            match rustParseInt (-32768) 32767 line with
            | some offset =>
              .frame (.Success (some (.TempOffset offset))) (src.drop (2 + payload.length + 1))
            | none => .fail .parseIntError src
          | .err e => .fail e src
          | .panicked p => .panicked p
        | none => .incomplete src
      | some Command.GetAutoHoldEventThreshold =>
        match getPayload src with
        | some payload =>
          match convert_string payload with
          | .ok line =>
            match rustParseNat 255 line with
            | some th =>
              .frame (.Success (some (.AutoHoldEventThreshold th))) (src.drop (2 + payload.length + 1))
            | none => .fail .parseIntError src
          | .err e => .fail e src
          | .panicked p => .panicked p
        | none => .incomplete src
      | some Command.GetRecordingEventThreshold =>
        match getPayload src with
        | some payload =>
          match convert_string payload with
          | .ok line =>
            match rustParseNat 255 line with
            | some th =>
              .frame (.Success (some (.RecordingEventThreshold th))) (src.drop (2 + payload.length + 1))
            | none => .fail .parseIntError src
          | .err e => .fail e src
          | .panicked p => .panicked p
        | none => .incomplete src
      | some (Command.GetSaveName _) =>
        match getPayload src with
        | some payload =>
          match convert_string payload with
          | .ok line =>
            .frame (.Success (some (.SaveName line))) (src.drop (2 + payload.length + 1))
          | .err e => .fail e src
          | .panicked p => .panicked p
        | none => .incomplete src
      | some Command.GetMemoryStat =>
        match getPayload src with
        | some payload =>
          let rest := src.drop (2 + payload.length + 1)
          match MemoryStat.tryFrom payload with
          | .ok stat => .frame (.Success (some (.MemoryStat stat))) rest
          | .err e => .fail e rest
          | .panicked p => .panicked p
        | none => .incomplete src
      | some Command.GetMeasurementBinary =>
        if STATUS_LEN + BIN_MARKER_LEN + MEA_METADATA_LEN ≤ src.length then
          let readings := u16FromLe (src.getD (2 + BIN_MARKER_LEN + MEA_METADATA_LEN - 2) 0)
                                   (src.getD (2 + BIN_MARKER_LEN + MEA_METADATA_LEN - 1) 0)
          let total := STATUS_LEN + BIN_MARKER_LEN + MEA_METADATA_LEN +
                       readings * READING_LEN + EOL_LEN
          if total ≤ src.length then
            match RawMeasurement.tryFrom ((src.take total).drop 2) with
            | .ok m => .frame (.Success (some (.MeasurementBinary m))) (src.drop total)
            | .err e => .fail e src
            | .panicked p => .panicked p
          else .incomplete src
        else .incomplete src
      | some (Command.QuerySavedMeasurement _) =>
        match RawSavedMeasurement.canParse (src.drop 2) with
        | some count =>
          let rest := src.drop (2 + count)
          match RawSavedMeasurement.tryFrom ((src.take (2 + count)).drop 2) with
          | .ok m => .frame (.Success (some (.SavedMeasurement m))) rest
          | .err e => .fail e rest
          | .panicked p => .panicked p
        | none => .incomplete src
      | some (Command.QueryMinMaxSessionInfo _) =>
        match RawSavedMinMaxMeasurement.canParse (src.drop 2) with
        | some count =>
          let rest := src.drop (2 + count)
          match RawSavedMinMaxMeasurement.tryFrom ((src.take (2 + count)).drop 2) with
          | .ok m => .frame (.Success (some (.MinMaxSessionInfo m))) rest
          | .err e => .fail e rest
          | .panicked p => .panicked p
        | none => .incomplete src
      | some (Command.QueryPeakSessionInfo _) =>
        match RawSavedMinMaxMeasurement.canParse (src.drop 2) with
        | some count =>
          let rest := src.drop (2 + count)
          match RawSavedMinMaxMeasurement.tryFrom ((src.take (2 + count)).drop 2) with
          | .ok m => .frame (.Success (some (.PeakSessionInfo m))) rest
          | .err e => .fail e rest
          | .panicked p => .panicked p
        | none => .incomplete src
      | some (Command.QueryRecordedSessionInfo _) =>
        match RawSavedRecordingSessionInfo.canParse (src.drop 2) with
        | some count =>
          let rest := src.drop (2 + count)
          match RawSavedRecordingSessionInfo.tryFrom ((src.take (2 + count)).drop 2) with
          | .ok m => .frame (.Success (some (.RecordedSessionInfo m))) rest
          | .err e => .fail e rest
          | .panicked p => .panicked p
        | none => .incomplete src
      | some (Command.QuerySessionRecordReadings _ _) =>
        match RawSessionRecordReadings.canParse (src.drop 2) with
        | some count =>
          let rest := src.drop (2 + count)
          match RawSessionRecordReadings.tryFrom ((src.take (2 + count)).drop 2) with
          | .ok m => .frame (.Success (some (.SessionRecordReading m))) rest
          | .err e => .fail e rest
          | .panicked p => .panicked p
        | none => .incomplete src
      | none => .panicked .noCommandCalled
    else if b0 = 49 then .frame .SyntaxError (src.drop 2)
    else if b0 = 50 then .frame .ExecutionError (src.drop 2)
    else if b0 = 53 then .frame .NoData (src.drop 2)
    else .fail (.unknownResponseCode b0) src
  | _ => .incomplete src

/-- `ProtocolCodec::decode` (codec.rs:54-620): the decode body never writes
`self.last_cmd`, so the codec state is returned unchanged. -/
def ProtocolCodec.decode (c : ProtocolCodec) (src : List UInt8) :
    DecodeOut × ProtocolCodec :=
  (decodeCore c.last_cmd src, c)

/-- A single-quote character (`0x27`). -/
def squote : String := String.singleton (Char.ofNat 39)

/-- `enclose_string` (codec.rs:636-638). -/
def enclose_string (s : String) : String := squote ++ s ++ squote

/-- The command line written by `ProtocolCodec::encode` (codec.rs:643-807),
before the trailing `\r`. -/
def Command.wire : Command → String
  | .Id => "id"
  | .QueryMap name => "qemap " ++ name
  | .SetBacklightTimeout d => "mp ablto," ++ toString d
  | .GetBacklightTimeout => "qmp ablto"
  | .SetDevicePowerOff d => "mp apoffto," ++ toString d
  | .GetDevicePowerOff => "qmp apoffto"
  | .GetOperator => "qmpq operator"
  | .SetOperator operator => "mpq operator," ++ enclose_string operator
  | .GetCompany => "qmpq company"
  | .SetCompany company => "mpq company," ++ enclose_string company
  | .GetSite => "qmpq site"
  | .SetSite site => "mpq site," ++ enclose_string site
  | .GetContact => "qmpq contact"
  | .SetContact contact => "mpq contact," ++ contact
  | .GetClock => "qmp clock"
  | .SetClock clock => "mp clock," ++ toString clock
  | .GetSaveName slot => "qsavname " ++ toString slot
  | .SetSaveName slot name => "savname " ++ toString slot ++ "," ++ enclose_string name
  | .GetMemoryStat => "qsls"
  | .GetMeasurementBinary => "qddb"
  | .QuerySavedMeasurement idx => "qsmr " ++ toString idx
  | .QueryMinMaxSessionInfo idx => "qmmsi " ++ toString idx
  | .QueryPeakSessionInfo idx => "qpsi " ++ toString idx
  | .QueryRecordedSessionInfo idx => "qrsi " ++ toString idx
  | .QuerySessionRecordReadings reading_idx sample_idx =>
    "qsrr " ++ toString reading_idx ++ "," ++ toString sample_idx
  | .Clear mem =>
    let s := match mem with
      | .All => "ALL"
      | .Measurements => "MEASUREMENT"
      | .MinMax => "MIN_MAX"
      | .Peak => "PEAK"
      | .Recordings => "RECORDED"
    "csd " ++ s
  | .ResetDevice => "rmp"
  | .GetBeeper => "qmp beeper"
  | .SetBeeper state => if state then "mp beeper,ON" else "mp beeper,OFF"
  | .GetSmoothing => "qmp acsmooth"
  | .SetSmoothing state => if state then "mp acsmooth,ON" else "mp acsmooth,OFF"
  | .GetDigitCount => "qmp digits"
  | .SetDigitCount digits =>
    let s := match digits with
      | .Digit4 => "4"
      | .Digit5 => "5"
    "mp digits," ++ s
  | .GetLanguage => "qmp lang"
  | .SetLanguage lang =>
    let s := match lang with
      | .German => "GERMAN"
      | .English => "ENGLISH"
      | .French => "FRENCH"
      | .Italian => "ITALIAN"
      | .Spanish => "SPANISH"
      | .Japanese => "JAPANESE"
      | .Chinese => "CHINESE"
    "mp lang," ++ s
  | .GetDateFormat => "qmp dateFmt"
  | .SetDateFormat fmt =>
    let s := match fmt with
      | .DD_MM => "DD_MM"
      | .MM_DD => "MM_DD"
    "mp dateFmt," ++ s
  | .GetTimeFormat => "qmp timeFmt"
  | .SetTimeFormat fmt =>
    let s := match fmt with
      | .Time12 => "12"
      | .Time24 => "24"
    "mp timeFmt," ++ s
  | .GetNumFormat => "qmp numFmt"
  | .SetNumFormat fmt =>
    let s := match fmt with
      | .Point => "POINT"
      | .Comma => "COMMA"
    "mp numFmt," ++ s
  | .GetAutoHoldEventThreshold => "qmp ahEventTh"
  | .SetAutoHoldEventThreshold thd => "mp ahEventTh," ++ toString thd
  | .GetRecordingEventThreshold => "qmp recEventTh"
  | .SetRecordingEventThreshold thd => "mp recEventTh," ++ toString thd
  | .GetCustomDbm => "qmp cusDBm"
  | .SetCustomDbm d_bm => "mp cusDBm," ++ toString d_bm
  | .GetDbmRef => "qmp dBmRef"
  | .SetDbmRef d_bm =>
    let param := match d_bm with
      | .Ref4 => "4"
      | .Ref8 => "8"
      | .Ref16 => "16"
      | .Ref25 => "25"
      | .Ref32 => "32"
      | .Ref50 => "50"
      | .Ref75 => "75"
      | .Ref600 => "600"
      | .Ref1000 => "1000"
      | .Custom => "0"
    "mp dBmRef," ++ param
  | .GetTempOffset => "qmp tempOs"
  | .SetTempOffset offset => "mp tempOs," ++ toString offset

/-- `ProtocolCodec::encode` (codec.rs:643-812): append the command line and a
`\r` to the outbound buffer and record the command as outstanding. -/
def ProtocolCodec.encode (_c : ProtocolCodec) (item : Command) (dst : String) :
    String × ProtocolCodec :=
  (dst ++ item.wire ++ "\x0d", { last_cmd := some item })

/-! ## Theorems -/

/-- C1: `read_double` on raw bytes `[b0..b7]` returns exactly the IEEE-754
double whose big-endian byte representation is `[b3,b2,b1,b0,b7,b6,b5,b4]`,
i.e. the result of swapping the byte pairs `(b0,b3)`, `(b1,b2)`, `(b4,b7)`,
`(b5,b6)` and interpreting the outcome as a big-endian 64-bit float. -/
theorem read_double_byte_swap (b0 b1 b2 b3 b4 b5 b6 b7 : UInt8) (rest : List UInt8) :
    read_double (b0 :: b1 :: b2 :: b3 :: b4 :: b5 :: b6 :: b7 :: rest) =
      .ok (f64FromBeBytes [b3, b2, b1, b0, b7, b6, b5, b4], rest) := rfl

/-- C3: the metadata timestamp of the live `RawMeasurement` record is decoded
as a plain little-endian double, not with `read_double`.  On the frame below
(readings count 0) whose `ts` bytes are `[0,0,0,0,0,0,0,1]`, the decoder
yields `ts` with bit pattern `2^56` (little-endian reading) although the
byte-swap rule demands bit pattern `2^24`; `range_max` on the same bytes does
go through the byte-swap rule. -/
theorem measurement_ts_little_endian :
    RawMeasurement.tryFrom
        [35, 48, 1, 0, 2, 0, 3, 0, 4, 0, 0, 0, 0, 0, 0, 0, 0, 1,
         0, 0, 0, 0, 0, 0, 0, 0, 0, 0, 0, 1, 0, 0, 0, 0, 0, 0, 13] =
      .ok { pri_function := 1, sec_function := 2, auto_range := 3, unit := 4,
            range_max := readDoubleBytes [0, 0, 0, 0, 0, 0, 0, 1],
            unit_multiplier := 0, bolt := 0,
            ts := f64FromLeBytes [0, 0, 0, 0, 0, 0, 0, 1],
            modes := 0, un1 := 0, readings := [] } ∧
    f64FromLeBytes [0, 0, 0, 0, 0, 0, 0, 1] ≠ readDoubleBytes [0, 0, 0, 0, 0, 0, 0, 1] := by
  constructor
  · rfl
  · decide

/-- C4 counterexample: after encoding `SetBeeper(true)` and then decoding the
complete success frame `"0\r"`, the codec's outstanding-command state is not
empty — `decode` emits the frame but `last_cmd` still holds the command. -/
theorem codec_not_idle_after_decode :
    (((ProtocolCodec.mk none).encode (.SetBeeper true) "").2.decode [48, 13]).1 =
        .frame (.Success none) [] ∧
    (((ProtocolCodec.mk none).encode (.SetBeeper true) "").2.decode [48, 13]).2.last_cmd ≠
        none := by
  constructor
  · rfl
  · decide

/-- C4 amended: encoding a command makes it the outstanding command, and
`decode` never changes the codec state — in particular it does not return the
state to `Idle` when a complete frame is emitted. -/
theorem codec_state_after_decode :
    (∀ (c : ProtocolCodec) (item : Command) (dst : String),
        ((c.encode item dst).2).last_cmd = some item) ∧
    (∀ (c : ProtocolCodec) (src : List UInt8), (c.decode src).2 = c) :=
  ⟨fun _ _ _ => rfl, fun _ _ => rfl⟩

/-- The commands handled by the no-payload success arm of `decode`
(codec.rs:67-91). -/
def Command.isNoPayloadSet : Command → Bool
  | .SetBacklightTimeout _ | .SetDevicePowerOff _ | .SetOperator _
  | .SetCompany _ | .SetSite _ | .SetContact _ | .SetSaveName _ _
  | .SetBeeper _ | .SetSmoothing _ | .Clear _ | .ResetDevice
  | .SetCustomDbm _ | .SetDigitCount _ | .SetAutoHoldEventThreshold _
  | .SetRecordingEventThreshold _ | .SetLanguage _ | .SetDateFormat _
  | .SetTimeFormat _ | .SetNumFormat _ | .SetDbmRef _ | .SetTempOffset _
  | .SetClock _ => true
  | _ => false

/-- C6: decoding a buffer starting `1\r` / `2\r` / `5\r` emits exactly
`SyntaxError` / `ExecutionError` / `NoData`, consuming 2 bytes and never
touching the rest, for every outstanding-command state (including none);
and a buffer starting `0\r` with an outstanding no-payload `Set`-style
command emits `Success(None)`, consuming 2 bytes. -/
theorem status_digit_responses :
    (∀ (st : Option Command) (rest : List UInt8),
        decodeCore st (49 :: 13 :: rest) = .frame .SyntaxError rest ∧
        decodeCore st (50 :: 13 :: rest) = .frame .ExecutionError rest ∧
        decodeCore st (53 :: 13 :: rest) = .frame .NoData rest) ∧
    (∀ (cmd : Command), cmd.isNoPayloadSet = true →
        ∀ (rest : List UInt8),
          decodeCore (some cmd) (48 :: 13 :: rest) = .frame (.Success none) rest) := by
  constructor
  · intro st rest
    exact ⟨rfl, rfl, rfl⟩
  · intro cmd h rest
    cases cmd <;> first | rfl | simp [Command.isNoPayloadSet] at h

/-- Witness for `status_digit_responses` at concrete inputs. -/
theorem status_digit_responses_witness :
    Command.isNoPayloadSet (.SetBeeper true) = true ∧
    decodeCore (some (.SetBeeper true)) [48, 13, 7] = .frame (.Success none) [7] ∧
    decodeCore none [49, 13, 65] = .frame .SyntaxError [65] :=
  ⟨by decide, status_digit_responses.2 (.SetBeeper true) (by decide) [7],
   (status_digit_responses.1 none [65]).1⟩

/-- C7: with at least 2 bytes buffered, a second byte other than `\r` is a
fatal decode error; a first byte outside `{0,1,2,5}` (second byte `\r`) is a
fatal decode error; with fewer than 2 bytes, decode reports incomplete. -/
theorem malformed_status_errors :
    (∀ (st : Option Command) (b0 b1 : UInt8) (rest : List UInt8), b1 ≠ 13 →
        decodeCore st (b0 :: b1 :: rest) = .fail .responseCodeExpected (b0 :: b1 :: rest)) ∧
    (∀ (st : Option Command) (b0 : UInt8) (rest : List UInt8),
        b0 ≠ 48 → b0 ≠ 49 → b0 ≠ 50 → b0 ≠ 53 →
        decodeCore st (b0 :: 13 :: rest) = .fail (.unknownResponseCode b0) (b0 :: 13 :: rest)) ∧
    (∀ (st : Option Command) (src : List UInt8), src.length < 2 →
        decodeCore st src = .incomplete src) := by
  refine ⟨?_, ?_, ?_⟩
  · intro st b0 b1 rest h
    simp only [decodeCore, if_pos h]
  · intro st b0 rest h48 h49 h50 h53
    simp only [decodeCore]
    rw [if_neg (by simp), if_neg h48, if_neg h49, if_neg h50, if_neg h53]
  · intro st src h
    match src with
    | [] => rfl
    | [b] => rfl
    | b0 :: b1 :: rest => simp at h; omega

/-- Witness for `malformed_status_errors` at concrete inputs. -/
theorem malformed_status_errors_witness :
    decodeCore none [48, 65] = .fail .responseCodeExpected [48, 65] ∧
    decodeCore none [51, 13] = .fail (.unknownResponseCode 51) [51, 13] ∧
    decodeCore none [48] = .incomplete [48] :=
  ⟨malformed_status_errors.1 none 48 65 [] (by decide),
   malformed_status_errors.2.1 none 51 [] (by decide) (by decide) (by decide) (by decide),
   malformed_status_errors.2.2 none [48] (by decide)⟩

set_option maxRecDepth 100000 in
/-- C5 counterexample: the raw timestamp `0.5` (bit pattern
`0x3FE0000000000000`) is finite (neither NaN nor infinite) and non-zero, yet
the translated timestamp is absent, because `0.5 as isize == 0`. -/
theorem measurement_ts_fractional_absent :
    measurementTs ⟨0x3FE0000000000000⟩ = none ∧
    F64.isNan ⟨0x3FE0000000000000⟩ = false ∧
    F64.isInfinite ⟨0x3FE0000000000000⟩ = false ∧
    F64.isZero ⟨0x3FE0000000000000⟩ = false := by
  refine ⟨?_, by decide, by decide, by decide⟩
  decide

/-- For a finite non-extreme exponent, the truncated magnitude vanishes
exactly when the magnitude is below one, i.e. the biased exponent is below
1023. -/
theorem F64.truncMagnitude_eq_zero_iff (x : F64) (h1 : 0 < x.exponent)
    (h2 : x.exponent < 2047) : x.truncMagnitude = 0 ↔ x.exponent < 1023 := by
  have hf : x.fraction < 2 ^ 52 := Nat.mod_lt _ (by norm_num)
  unfold F64.truncMagnitude
  rw [if_neg (by omega)]
  rw [Nat.div_eq_zero_iff (by positivity)]
  constructor
  · intro h
    by_contra hc
    have h1023 : 1023 ≤ x.exponent := by omega
    have : 2 ^ 52 * 2 ^ 1023 ≤ (2 ^ 52 + x.fraction) * 2 ^ x.exponent :=
      Nat.mul_le_mul (by omega) (Nat.pow_le_pow_right (by norm_num) h1023)
    rw [← pow_add] at this
    omega
  · intro h
    calc (2 ^ 52 + x.fraction) * 2 ^ x.exponent
        ≤ (2 ^ 52 + x.fraction) * 2 ^ 1022 :=
          Nat.mul_le_mul_left _ (Nat.pow_le_pow_right (by norm_num) (by omega))
      _ < 2 ^ 53 * 2 ^ 1022 := (Nat.mul_lt_mul_right (by positivity)).mpr (by omega)
      _ = 2 ^ 1075 := by rw [← pow_add]

/-- When the value is neither NaN nor infinite, `as isize` yields zero
exactly when the truncated magnitude is zero. -/
theorem F64.toIsizeSat_zero_iff (x : F64) (hn : x.isNan = false)
    (hi : x.isInfinite = false) : x.toIsizeSat = 0 ↔ x.truncMagnitude = 0 := by
  unfold F64.toIsizeSat
  simp only [hn, hi, Bool.false_eq_true, if_false]
  cases hs : x.sign <;> simp <;> omega

/-- C5 amended: the translated timestamp of the live measurement is absent
exactly when the raw `ts` is NaN, infinite, or has magnitude below one
(biased exponent below 1023) — the latter covering zero, subnormal, and all
fractional values in `(-1, 1)`. -/
theorem measurement_ts_absent_iff (ts : F64) :
    measurementTs ts = none ↔
      (ts.isNan = true ∨ ts.isInfinite = true ∨ ts.exponent < 1023) := by
  have hf : ts.fraction < 2 ^ 52 := Nat.mod_lt _ (by norm_num)
  have he : ts.exponent < 2048 := Nat.mod_lt _ (by norm_num)
  have hnorm : ts.isNormal = true ↔ (0 < ts.exponent ∧ ts.exponent < 2047) := by
    simp [F64.isNormal]
  have hnan : ts.isNan = true ↔ (ts.exponent = 2047 ∧ ts.fraction ≠ 0) := by
    simp [F64.isNan]
  have hinf : ts.isInfinite = true ↔ (ts.exponent = 2047 ∧ ts.fraction = 0) := by
    simp [F64.isInfinite]
  have key : (ts.toIsizeSat ≠ 0 ∧ ts.isNormal = true) ↔
      (1023 ≤ ts.exponent ∧ ts.exponent < 2047) := by
    constructor
    · rintro ⟨hne, hn⟩
      rw [hnorm] at hn
      refine ⟨?_, hn.2⟩
      by_contra hlt
      apply hne
      have hnanF : ts.isNan = false := by
        rw [Bool.eq_false_iff, ne_eq, hnan]; omega
      have hinfF : ts.isInfinite = false := by
        rw [Bool.eq_false_iff, ne_eq, hinf]; omega
      rw [F64.toIsizeSat_zero_iff ts hnanF hinfF,
          F64.truncMagnitude_eq_zero_iff ts hn.1 hn.2]
      omega
    · rintro ⟨hge, hlt⟩
      have hn : ts.isNormal = true := hnorm.mpr ⟨by omega, hlt⟩
      refine ⟨?_, hn⟩
      have hnanF : ts.isNan = false := by
        rw [Bool.eq_false_iff, ne_eq, hnan]; omega
      have hinfF : ts.isInfinite = false := by
        rw [Bool.eq_false_iff, ne_eq, hinf]; omega
      rw [ne_eq, F64.toIsizeSat_zero_iff ts hnanF hinfF,
          F64.truncMagnitude_eq_zero_iff ts (by omega) hlt]
      omega
  have hform : measurementTs ts = none ↔ ¬(ts.toIsizeSat ≠ 0 ∧ ts.isNormal = true) := by
    by_cases hc : ts.toIsizeSat ≠ 0 ∧ ts.isNormal = true
    · simp [measurementTs, hc]
    · simp [measurementTs, hc]
  rw [hform, key, hnan, hinf]
  omega

/-! ### List helpers for the length-probe proof -/

theorem getD_cons2 (a b : UInt8) (x : List UInt8) (n : Nat) (d : UInt8) :
    (a :: b :: x).getD (n + 2) d = x.getD n d := rfl

theorem getD_append_lt (l1 l2 : List UInt8) (n : Nat) (d : UInt8) (h : n < l1.length) :
    (l1 ++ l2).getD n d = l1.getD n d := by
  simp [List.getD, List.getElem?_append, h]

theorem getD_take_lt (l : List UInt8) (m k : Nat) (d : UInt8) (h : k < m) :
    (l.take m).getD k d = l.getD k d := by
  simp [List.getD, List.getElem?_take, h]

theorem findIdx_no_cr (l : List UInt8) (h : ∀ b ∈ l, b ≠ 13) :
    ∀ i, List.findIdx? (fun b => b = 13) l i = none := by
  induction l with
  | nil => intro i; rfl
  | cons a t ih =>
    intro i
    rw [List.findIdx?_cons]
    have ha : decide (a = 13) = false := by
      simp
      exact h a (by simp)
    rw [ha]
    simp only [Bool.false_eq_true, if_false]
    exact ih (fun b hb => h b (by simp [hb])) (i + 1)

theorem findIdx_cr_append (l t : List UInt8) (h : ∀ b ∈ l, b ≠ 13) :
    ∀ i, List.findIdx? (fun b => b = 13) (l ++ 13 :: t) i = some (i + l.length) := by
  induction l with
  | nil => intro i; rw [List.nil_append, List.findIdx?_cons]; simp
  | cons a tl ih =>
    intro i
    rw [List.cons_append, List.findIdx?_cons]
    have ha : decide (a = 13) = false := by
      simp
      exact h a (by simp)
    rw [ha]
    simp only [Bool.false_eq_true, if_false]
    rw [ih (fun b hb => h b (by simp [hb])) (i + 1)]
    simp
    omega

/-- `RawSavedMeasurement.canParse` with its length constants evaluated. -/
theorem savedMeaCanParse_eq (buf : List UInt8) :
    RawSavedMeasurement.canParse buf =
      (if 40 ≤ buf.length then
        if 40 + u16FromLe (buf.getD 38 0) (buf.getD 39 0) * 30 < buf.length then
          match List.findIdx? (fun b => b = 13)
              (buf.drop (40 + u16FromLe (buf.getD 38 0) (buf.getD 39 0) * 30)) with
          | some idx => some (40 + u16FromLe (buf.getD 38 0) (buf.getD 39 0) * 30 + idx + 1)
          | none => none
        else none
      else none) := rfl

/-- `RawSessionRecordReadings.canParse` with its length constants evaluated. -/
theorem sessionCanParse_eq (buf : List UInt8) :
    RawSessionRecordReadings.canParse buf =
      (if 149 ≤ buf.length then some 149 else none) := rfl

/-- C2: for a complete saved-record frame — `#0` marker, a 38-byte metadata
block whose last two bytes hold the little-endian readings count, that many
30-byte readings, and a CR-terminated name — `can_parse` returns `None` on
every proper prefix and the exact total frame length (including the trailing
CR) on the full frame and on any extension of it; being a pure function of
its input it mutates nothing.  The fixed-length probe of
`RawSessionRecordReadings` (149-byte frames) satisfies the same property. -/
theorem saved_frame_length_probe (meta rdgs name : List UInt8)
    (hm : meta.length = 38)
    (hr : rdgs.length = u16FromLe (meta.getD 36 0) (meta.getD 37 0) * 30)
    (hn : ∀ b ∈ name, b ≠ 13) :
    ((∀ k, k < (35 :: 48 :: (meta ++ (rdgs ++ (name ++ [13])))).length →
        RawSavedMeasurement.canParse
          ((35 :: 48 :: (meta ++ (rdgs ++ (name ++ [13])))).take k) = none) ∧
     (∀ ext, RawSavedMeasurement.canParse
          ((35 :: 48 :: (meta ++ (rdgs ++ (name ++ [13])))) ++ ext) =
        some (35 :: 48 :: (meta ++ (rdgs ++ (name ++ [13])))).length)) ∧
    (∀ (frame2 ext2 : List UInt8), frame2.length = 149 →
      (∀ k, k < 149 → RawSessionRecordReadings.canParse (frame2.take k) = none) ∧
      RawSessionRecordReadings.canParse (frame2 ++ ext2) = some 149) := by
  have hflen : (35 :: 48 :: (meta ++ (rdgs ++ (name ++ [13])))).length =
      41 + rdgs.length + name.length := by
    simp
    omega
  constructor
  · constructor
    · intro k hk
      rw [hflen] at hk
      have htklen : ((35 :: 48 :: (meta ++ (rdgs ++ (name ++ [13])))).take k).length = k := by
        simp [hm]
        omega
      rw [savedMeaCanParse_eq, htklen]
      by_cases h40 : 40 ≤ k
      · have hg38 : ((35 :: 48 :: (meta ++ (rdgs ++ (name ++ [13])))).take k).getD 38 0 =
            meta.getD 36 0 := by
          rw [getD_take_lt _ _ _ _ (by omega)]
          rw [show (38 : Nat) = 36 + 2 from rfl, getD_cons2,
              getD_append_lt _ _ _ _ (by omega)]
        have hg39 : ((35 :: 48 :: (meta ++ (rdgs ++ (name ++ [13])))).take k).getD 39 0 =
            meta.getD 37 0 := by
          rw [getD_take_lt _ _ _ _ (by omega)]
          rw [show (39 : Nat) = 37 + 2 from rfl, getD_cons2,
              getD_append_lt _ _ _ _ (by omega)]
        rw [hg38, hg39, if_pos h40]
        by_cases htot : k ≤ 40 + u16FromLe (meta.getD 36 0) (meta.getD 37 0) * 30
        · rw [if_neg (by omega)]
        · rw [if_pos (by omega)]
          have hdt : ((35 :: 48 :: (meta ++ (rdgs ++ (name ++ [13])))).take k).drop
                (40 + u16FromLe (meta.getD 36 0) (meta.getD 37 0) * 30) =
              name.take (k - (40 + u16FromLe (meta.getD 36 0) (meta.getD 37 0) * 30)) := by
            rw [List.drop_take]
            have hdf : (35 :: 48 :: (meta ++ (rdgs ++ (name ++ [13])))).drop
                (40 + u16FromLe (meta.getD 36 0) (meta.getD 37 0) * 30) = name ++ [13] := by
              have hsplit : (35 :: 48 :: (meta ++ (rdgs ++ (name ++ [13])))) =
                  (35 :: 48 :: (meta ++ rdgs)) ++ (name ++ [13]) := by
                simp [List.append_assoc]
              rw [hsplit]
              have hpl : (40 + u16FromLe (meta.getD 36 0) (meta.getD 37 0) * 30) =
                  (35 :: 48 :: (meta ++ rdgs)).length := by
                simp only [List.length_cons, List.length_append, hm, hr]
                omega
              rw [hpl, List.drop_left]
            rw [hdf]
            rw [List.take_append_of_le_length (by omega)]
          rw [hdt]
          rw [findIdx_no_cr _ (fun b hb => hn b (List.take_subset _ _ hb)) 0]
      · rw [if_neg (by omega)]
    · intro ext
      have hbe : (35 :: 48 :: (meta ++ (rdgs ++ (name ++ [13])))) ++ ext =
          (35 :: 48 :: (meta ++ rdgs)) ++ (name ++ 13 :: ext) := by
        simp [List.append_assoc]
      rw [hbe, hflen, savedMeaCanParse_eq]
      have hlen2 : ((35 :: 48 :: (meta ++ rdgs)) ++ (name ++ 13 :: ext)).length =
          40 + rdgs.length + (name.length + 1 + ext.length) := by
        simp only [List.length_cons, List.length_append, hm]
        omega
      have hg38 : ((35 :: 48 :: (meta ++ rdgs)) ++ (name ++ 13 :: ext)).getD 38 0 =
          meta.getD 36 0 := by
        rw [getD_append_lt _ _ _ _
          (by simp only [List.length_cons, List.length_append, hm]; omega)]
        rw [show (38 : Nat) = 36 + 2 from rfl, getD_cons2,
            getD_append_lt _ _ _ _ (by omega)]
      have hg39 : ((35 :: 48 :: (meta ++ rdgs)) ++ (name ++ 13 :: ext)).getD 39 0 =
          meta.getD 37 0 := by
        rw [getD_append_lt _ _ _ _
          (by simp only [List.length_cons, List.length_append, hm]; omega)]
        rw [show (39 : Nat) = 37 + 2 from rfl, getD_cons2,
            getD_append_lt _ _ _ _ (by omega)]
      rw [hlen2, hg38, hg39]
      rw [if_pos (by omega), if_pos (by omega)]
      have hdr : ((35 :: 48 :: (meta ++ rdgs)) ++ (name ++ 13 :: ext)).drop
          (40 + u16FromLe (meta.getD 36 0) (meta.getD 37 0) * 30) = name ++ 13 :: ext := by
        have hpl : (40 + u16FromLe (meta.getD 36 0) (meta.getD 37 0) * 30) =
            (35 :: 48 :: (meta ++ rdgs)).length := by
          simp only [List.length_cons, List.length_append, hm, hr]
          omega
        rw [hpl, List.drop_left]
      rw [hdr, findIdx_cr_append _ _ hn 0]
      simp only [Option.some.injEq]
      omega
  · intro frame2 ext2 h149
    constructor
    · intro k hk
      rw [sessionCanParse_eq]
      rw [if_neg (by simp [h149]; omega)]
    · rw [sessionCanParse_eq]
      rw [if_pos (by simp [h149])]

/-- Witness for `saved_frame_length_probe`: a concrete 73-byte frame with one
reading and the name `"ab"`; the 72-byte prefix probes `None` and the frame
with two extra bytes probes exactly 73. -/
theorem saved_frame_length_probe_witness :
    RawSavedMeasurement.canParse
        ((35 :: 48 :: ((List.replicate 36 0 ++ [1, 0]) ++
          (List.replicate 30 7 ++ ([97, 98] ++ [13])))).take 72) = none ∧
    RawSavedMeasurement.canParse
        ((35 :: 48 :: ((List.replicate 36 0 ++ [1, 0]) ++
          (List.replicate 30 7 ++ ([97, 98] ++ [13])))) ++ [1, 2]) =
      some (35 :: 48 :: ((List.replicate 36 0 ++ [1, 0]) ++
          (List.replicate 30 7 ++ ([97, 98] ++ [13])))).length :=
  ⟨((saved_frame_length_probe (List.replicate 36 0 ++ [1, 0]) (List.replicate 30 7) [97, 98]
      (by decide) (by decide) (by decide)).1).1 72 (by decide),
   ((saved_frame_length_probe (List.replicate 36 0 ++ [1, 0]) (List.replicate 30 7) [97, 98]
      (by decide) (by decide) (by decide)).1).2 [1, 2]⟩

/-! ### Panic analysis of the record decoders

`decode` propagates panics from the record decoders; the lemmas below
establish which panics each parser can produce — in particular that none of
them produces the `"No command called"` panic, which is reachable only from
the codec's own `None` arm. -/

theorem PResult.bind_ne_pan {α β : Type} {x : PResult α} {f : α → PResult β} {q : PanicMsg}
    (hx : x ≠ .panicked q) (hf : ∀ a, f a ≠ .panicked q) : x >>= f ≠ .panicked q := by
  cases x with
  | ok a =>
    intro h
    rw [show ((PResult.ok a : PResult α) >>= f) = f a from rfl] at h
    exact hf a h
  | err e =>
    intro h
    rw [show ((PResult.err e : PResult α) >>= f) = PResult.err e from rfl] at h
    exact PResult.noConfusion h
  | panicked p =>
    intro h
    rw [show ((PResult.panicked p : PResult α) >>= f) = (PResult.panicked p : PResult β) from rfl] at h
    injection h with hpq
    exact hx (by rw [hpq])

theorem PResult.pure_ne_pan {α : Type} (a : α) (q : PanicMsg) :
    (pure a : PResult α) ≠ .panicked q := by
  intro h
  exact PResult.noConfusion h

theorem readExact_ne_pan (n : Nat) : ∀ (l : List UInt8) (q : PanicMsg),
    readExact n l ≠ .panicked q := by
  induction n with
  | zero => intro l q; simp [readExact]
  | succ n ih =>
    intro l q
    cases l with
    | nil => simp [readExact]
    | cons b t =>
      simp only [readExact]
      rcases hret : readExact n t with a | e | p
      · obtain ⟨bs, rest⟩ := a
        simp
      · simp
      · exact absurd hret (ih t p)

theorem readU16Le_ne_pan (l : List UInt8) (q : PanicMsg) : readU16Le l ≠ .panicked q := by
  unfold readU16Le
  split <;> simp

theorem readI16Le_ne_pan (l : List UInt8) (q : PanicMsg) : readI16Le l ≠ .panicked q := by
  unfold readI16Le
  split <;> simp

theorem readF64Le_ne_pan (l : List UInt8) (q : PanicMsg) : readF64Le l ≠ .panicked q := by
  unfold readF64Le
  split <;> simp

theorem read_double_ne_pan (l : List UInt8) (q : PanicMsg) : read_double l ≠ .panicked q := by
  unfold read_double
  split <;> simp

theorem rawReading_tryFrom_ne_pan (v : List UInt8) (q : PanicMsg) :
    RawReading.tryFrom v ≠ .panicked q := by
  unfold RawReading.tryFrom
  refine PResult.bind_ne_pan (readU16Le_ne_pan _ _) ?_
  rintro ⟨a, cur⟩
  refine PResult.bind_ne_pan (read_double_ne_pan _ _) ?_
  rintro ⟨a2, cur⟩
  refine PResult.bind_ne_pan (readU16Le_ne_pan _ _) ?_
  rintro ⟨a3, cur⟩
  refine PResult.bind_ne_pan (readI16Le_ne_pan _ _) ?_
  rintro ⟨a4, cur⟩
  refine PResult.bind_ne_pan (readI16Le_ne_pan _ _) ?_
  rintro ⟨a5, cur⟩
  refine PResult.bind_ne_pan (readI16Le_ne_pan _ _) ?_
  rintro ⟨a6, cur⟩
  refine PResult.bind_ne_pan (readU16Le_ne_pan _ _) ?_
  rintro ⟨a7, cur⟩
  refine PResult.bind_ne_pan (readU16Le_ne_pan _ _) ?_
  rintro ⟨a8, cur⟩
  refine PResult.bind_ne_pan (read_double_ne_pan _ _) ?_
  rintro ⟨a9, cur⟩
  exact PResult.pure_ne_pan _ _

theorem readReadings_ne_pan (n : Nat) : ∀ (l : List UInt8) (q : PanicMsg),
    readReadings n l ≠ .panicked q := by
  induction n with
  | zero => intro l q; simp [readReadings]
  | succ n ih =>
    intro l q
    unfold readReadings
    refine PResult.bind_ne_pan (readExact_ne_pan _ _ _) ?_
    rintro ⟨buf, cur⟩
    refine PResult.bind_ne_pan (rawReading_tryFrom_ne_pan _ _) ?_
    intro reading
    refine PResult.bind_ne_pan (ih _ _) ?_
    rintro ⟨readings, cur⟩
    exact PResult.pure_ne_pan _ _

theorem read_saved_name_ne_cmd_pan (cur : List UInt8) :
    read_saved_name cur ≠ .panicked .noCommandCalled := by
  unfold read_saved_name
  split
  · simp
  · split <;> simp

theorem rawMea_tryFrom_ne_cmd_pan (v : List UInt8) :
    RawMeasurement.tryFrom v ≠ .panicked .noCommandCalled := by
  unfold RawMeasurement.tryFrom
  split
  · simp
  split
  · refine PResult.bind_ne_pan (readU16Le_ne_pan _ _) ?_
    rintro ⟨a1, cur⟩
    refine PResult.bind_ne_pan (readU16Le_ne_pan _ _) ?_
    rintro ⟨a2, cur⟩
    refine PResult.bind_ne_pan (readU16Le_ne_pan _ _) ?_
    rintro ⟨a3, cur⟩
    refine PResult.bind_ne_pan (readU16Le_ne_pan _ _) ?_
    rintro ⟨a4, cur⟩
    refine PResult.bind_ne_pan (read_double_ne_pan _ _) ?_
    rintro ⟨a5, cur⟩
    refine PResult.bind_ne_pan (readI16Le_ne_pan _ _) ?_
    rintro ⟨a6, cur⟩
    refine PResult.bind_ne_pan (readU16Le_ne_pan _ _) ?_
    rintro ⟨a7, cur⟩
    refine PResult.bind_ne_pan (readF64Le_ne_pan _ _) ?_
    rintro ⟨a8, cur⟩
    refine PResult.bind_ne_pan (readU16Le_ne_pan _ _) ?_
    rintro ⟨a9, cur⟩
    refine PResult.bind_ne_pan (readU16Le_ne_pan _ _) ?_
    rintro ⟨a10, cur⟩
    refine PResult.bind_ne_pan (readU16Le_ne_pan _ _) ?_
    rintro ⟨a11, cur⟩
    dsimp only
    split
    · simp
    · refine PResult.bind_ne_pan (readReadings_ne_pan _ _ _) ?_
      rintro ⟨rs, cur⟩
      exact PResult.pure_ne_pan _ _
  · simp

theorem rawSavedMea_tryFrom_ne_cmd_pan (v : List UInt8) :
    RawSavedMeasurement.tryFrom v ≠ .panicked .noCommandCalled := by
  unfold RawSavedMeasurement.tryFrom
  split
  · simp
  split
  · refine PResult.bind_ne_pan (readU16Le_ne_pan _ _) ?_
    rintro ⟨a1, cur⟩
    refine PResult.bind_ne_pan (readU16Le_ne_pan _ _) ?_
    rintro ⟨a2, cur⟩
    refine PResult.bind_ne_pan (readU16Le_ne_pan _ _) ?_
    rintro ⟨a3, cur⟩
    refine PResult.bind_ne_pan (readU16Le_ne_pan _ _) ?_
    rintro ⟨a4, cur⟩
    refine PResult.bind_ne_pan (readU16Le_ne_pan _ _) ?_
    rintro ⟨a5, cur⟩
    refine PResult.bind_ne_pan (readU16Le_ne_pan _ _) ?_
    rintro ⟨a6, cur⟩
    refine PResult.bind_ne_pan (read_double_ne_pan _ _) ?_
    rintro ⟨a7, cur⟩
    refine PResult.bind_ne_pan (readI16Le_ne_pan _ _) ?_
    rintro ⟨a8, cur⟩
    refine PResult.bind_ne_pan (readU16Le_ne_pan _ _) ?_
    rintro ⟨a9, cur⟩
    refine PResult.bind_ne_pan (readU16Le_ne_pan _ _) ?_
    rintro ⟨a10, cur⟩
    refine PResult.bind_ne_pan (readU16Le_ne_pan _ _) ?_
    rintro ⟨a11, cur⟩
    refine PResult.bind_ne_pan (readU16Le_ne_pan _ _) ?_
    rintro ⟨a12, cur⟩
    refine PResult.bind_ne_pan (readU16Le_ne_pan _ _) ?_
    rintro ⟨a13, cur⟩
    refine PResult.bind_ne_pan (readU16Le_ne_pan _ _) ?_
    rintro ⟨a14, cur⟩
    refine PResult.bind_ne_pan (readU16Le_ne_pan _ _) ?_
    rintro ⟨a15, cur⟩
    refine PResult.bind_ne_pan (readU16Le_ne_pan _ _) ?_
    rintro ⟨a16, cur⟩
    refine PResult.bind_ne_pan (readReadings_ne_pan _ _ _) ?_
    rintro ⟨rs, cur⟩
    refine PResult.bind_ne_pan (read_saved_name_ne_cmd_pan _) ?_
    rintro ⟨nm, cur⟩
    exact PResult.pure_ne_pan _ _
  · simp

theorem rawMinMax_tryFrom_ne_cmd_pan (v : List UInt8) :
    RawSavedMinMaxMeasurement.tryFrom v ≠ .panicked .noCommandCalled := by
  unfold RawSavedMinMaxMeasurement.tryFrom
  split
  · simp
  split
  · refine PResult.bind_ne_pan (readU16Le_ne_pan _ _) ?_
    rintro ⟨a1, cur⟩
    refine PResult.bind_ne_pan (readU16Le_ne_pan _ _) ?_
    rintro ⟨a2, cur⟩
    refine PResult.bind_ne_pan (read_double_ne_pan _ _) ?_
    rintro ⟨a3, cur⟩
    refine PResult.bind_ne_pan (read_double_ne_pan _ _) ?_
    rintro ⟨a4, cur⟩
    refine PResult.bind_ne_pan (readU16Le_ne_pan _ _) ?_
    rintro ⟨a5, cur⟩
    refine PResult.bind_ne_pan (readU16Le_ne_pan _ _) ?_
    rintro ⟨a6, cur⟩
    refine PResult.bind_ne_pan (readU16Le_ne_pan _ _) ?_
    rintro ⟨a7, cur⟩
    refine PResult.bind_ne_pan (readU16Le_ne_pan _ _) ?_
    rintro ⟨a8, cur⟩
    refine PResult.bind_ne_pan (read_double_ne_pan _ _) ?_
    rintro ⟨a9, cur⟩
    refine PResult.bind_ne_pan (readI16Le_ne_pan _ _) ?_
    rintro ⟨a10, cur⟩
    refine PResult.bind_ne_pan (readU16Le_ne_pan _ _) ?_
    rintro ⟨a11, cur⟩
    refine PResult.bind_ne_pan (read_double_ne_pan _ _) ?_
    rintro ⟨a12, cur⟩
    refine PResult.bind_ne_pan (readU16Le_ne_pan _ _) ?_
    rintro ⟨a13, cur⟩
    refine PResult.bind_ne_pan (readU16Le_ne_pan _ _) ?_
    rintro ⟨a14, cur⟩
    refine PResult.bind_ne_pan (readU16Le_ne_pan _ _) ?_
    rintro ⟨a15, cur⟩
    refine PResult.bind_ne_pan (readReadings_ne_pan _ _ _) ?_
    rintro ⟨rs, cur⟩
    refine PResult.bind_ne_pan (read_saved_name_ne_cmd_pan _) ?_
    rintro ⟨nm, cur⟩
    exact PResult.pure_ne_pan _ _
  · simp

theorem rawRecording_tryFrom_ne_cmd_pan (v : List UInt8) :
    RawSavedRecordingSessionInfo.tryFrom v ≠ .panicked .noCommandCalled := by
  unfold RawSavedRecordingSessionInfo.tryFrom
  split
  · simp
  split
  · refine PResult.bind_ne_pan (readU16Le_ne_pan _ _) ?_
    rintro ⟨a1, cur⟩
    refine PResult.bind_ne_pan (readU16Le_ne_pan _ _) ?_
    rintro ⟨a2, cur⟩
    refine PResult.bind_ne_pan (read_double_ne_pan _ _) ?_
    rintro ⟨a3, cur⟩
    refine PResult.bind_ne_pan (read_double_ne_pan _ _) ?_
    rintro ⟨a4, cur⟩
    refine PResult.bind_ne_pan (read_double_ne_pan _ _) ?_
    rintro ⟨a5, cur⟩
    refine PResult.bind_ne_pan (read_double_ne_pan _ _) ?_
    rintro ⟨a6, cur⟩
    refine PResult.bind_ne_pan (readU16Le_ne_pan _ _) ?_
    rintro ⟨a7, cur⟩
    refine PResult.bind_ne_pan (readU16Le_ne_pan _ _) ?_
    rintro ⟨a8, cur⟩
    refine PResult.bind_ne_pan (readU16Le_ne_pan _ _) ?_
    rintro ⟨a9, cur⟩
    refine PResult.bind_ne_pan (readU16Le_ne_pan _ _) ?_
    rintro ⟨a10, cur⟩
    refine PResult.bind_ne_pan (readU16Le_ne_pan _ _) ?_
    rintro ⟨a11, cur⟩
    refine PResult.bind_ne_pan (readU16Le_ne_pan _ _) ?_
    rintro ⟨a12, cur⟩
    refine PResult.bind_ne_pan (readU16Le_ne_pan _ _) ?_
    rintro ⟨a13, cur⟩
    refine PResult.bind_ne_pan (readU16Le_ne_pan _ _) ?_
    rintro ⟨a14, cur⟩
    refine PResult.bind_ne_pan (read_double_ne_pan _ _) ?_
    rintro ⟨a15, cur⟩
    refine PResult.bind_ne_pan (readI16Le_ne_pan _ _) ?_
    rintro ⟨a16, cur⟩
    refine PResult.bind_ne_pan (readU16Le_ne_pan _ _) ?_
    rintro ⟨a17, cur⟩
    refine PResult.bind_ne_pan (readU16Le_ne_pan _ _) ?_
    rintro ⟨a18, cur⟩
    refine PResult.bind_ne_pan (readU16Le_ne_pan _ _) ?_
    rintro ⟨a19, cur⟩
    refine PResult.bind_ne_pan (readU16Le_ne_pan _ _) ?_
    rintro ⟨a20, cur⟩
    refine PResult.bind_ne_pan (readU16Le_ne_pan _ _) ?_
    rintro ⟨a21, cur⟩
    refine PResult.bind_ne_pan (readU16Le_ne_pan _ _) ?_
    rintro ⟨a22, cur⟩
    refine PResult.bind_ne_pan (readU16Le_ne_pan _ _) ?_
    rintro ⟨a23, cur⟩
    refine PResult.bind_ne_pan (readU16Le_ne_pan _ _) ?_
    rintro ⟨a24, cur⟩
    refine PResult.bind_ne_pan (readReadings_ne_pan _ _ _) ?_
    rintro ⟨rs, cur⟩
    refine PResult.bind_ne_pan (read_saved_name_ne_cmd_pan _) ?_
    rintro ⟨nm, cur⟩
    exact PResult.pure_ne_pan _ _
  · simp

theorem rawSession_tryFrom_ne_cmd_pan (v : List UInt8) :
    RawSessionRecordReadings.tryFrom v ≠ .panicked .noCommandCalled := by
  unfold RawSessionRecordReadings.tryFrom
  split
  · simp
  split
  · refine PResult.bind_ne_pan (read_double_ne_pan _ _) ?_
    rintro ⟨a1, cur⟩
    refine PResult.bind_ne_pan (read_double_ne_pan _ _) ?_
    rintro ⟨a2, cur⟩
    refine PResult.bind_ne_pan (readReadings_ne_pan _ _ _) ?_
    rintro ⟨rs, cur⟩
    refine PResult.bind_ne_pan (readU16Le_ne_pan _ _) ?_
    rintro ⟨a3, cur⟩
    refine PResult.bind_ne_pan (readU16Le_ne_pan _ _) ?_
    rintro ⟨a4, cur⟩
    refine PResult.bind_ne_pan (readExact_ne_pan _ _ _) ?_
    rintro ⟨buf, cur⟩
    refine PResult.bind_ne_pan (rawReading_tryFrom_ne_pan _ _) ?_
    intro r2
    refine PResult.bind_ne_pan (readU16Le_ne_pan _ _) ?_
    rintro ⟨a5, cur⟩
    refine PResult.bind_ne_pan (readU16Le_ne_pan _ _) ?_
    rintro ⟨a6, cur⟩
    refine PResult.bind_ne_pan (readU16Le_ne_pan _ _) ?_
    rintro ⟨a7, cur⟩
    dsimp only
    split
    · exact PResult.pure_ne_pan _ _
    · simp
  · simp

theorem convert_string_ne_pan (l : List UInt8) (q : PanicMsg) :
    convert_string l ≠ .panicked q := by
  unfold convert_string
  split <;> simp

theorem ident_tryFrom_ne_pan (v : List UInt8) (q : PanicMsg) :
    Ident.tryFrom v ≠ .panicked q := by
  unfold Ident.tryFrom
  refine PResult.bind_ne_pan (convert_string_ne_pan _ _) ?_
  intro a
  dsimp only
  split
  · exact PResult.pure_ne_pan _ _
  · simp

theorem memoryStat_tryFrom_ne_pan (v : List UInt8) (q : PanicMsg) :
    MemoryStat.tryFrom v ≠ .panicked q := by
  unfold MemoryStat.tryFrom
  refine PResult.bind_ne_pan (convert_string_ne_pan _ _) ?_
  intro a
  dsimp only
  split
  · split
    · exact PResult.pure_ne_pan _ _
    · simp
  · simp

theorem mapInsertAll_ne_pan : ∀ (l : List (String × String)) (m : ValueMap) (q : PanicMsg),
    mapInsertAll l m ≠ .panicked q := by
  intro l
  induction l with
  | nil => intro m q; simp [mapInsertAll]
  | cons p t ih =>
    intro m q
    obtain ⟨i, name⟩ := p
    unfold mapInsertAll
    split
    · exact ih _ _
    · simp

/-- C10: decoding a success status (`0\r`) with no command ever encoded hits
the `panic!("No command called")` branch; with any command outstanding that
panic is unreachable for every input buffer. -/
theorem decode_success_requires_command :
    (∀ rest : List UInt8, decodeCore none (48 :: 13 :: rest) = .panicked .noCommandCalled) ∧
    (∀ (cmd : Command) (src : List UInt8),
        decodeCore (some cmd) src ≠ .panicked .noCommandCalled) := by
  constructor
  · intro rest
    rfl
  · intro cmd src h
    match src with
    | [] => simp [decodeCore] at h
    | [b] => simp [decodeCore] at h
    | b0 :: b1 :: tl =>
      simp only [decodeCore] at h
      repeat' split at h
      all_goals simp_all [rawMea_tryFrom_ne_cmd_pan,
        rawSavedMea_tryFrom_ne_cmd_pan,
        rawMinMax_tryFrom_ne_cmd_pan,
        rawRecording_tryFrom_ne_cmd_pan,
        rawSession_tryFrom_ne_cmd_pan, ident_tryFrom_ne_pan,
        memoryStat_tryFrom_ne_pan, convert_string_ne_pan, mapInsertAll_ne_pan]

/-- C9: whenever `decode` reports incomplete (no response emitted because the
buffered bytes do not yet contain a complete frame), the inbound buffer is
left unchanged byte-for-byte, so decoding can resume after appending bytes. -/
theorem incomplete_preserves_buffer (st : Option Command) (src r : List UInt8)
    (h : decodeCore st src = .incomplete r) : r = src := by
  match src with
  | [] =>
    simp only [decodeCore, DecodeOut.incomplete.injEq] at h
    exact h.symm
  | [b] =>
    simp only [decodeCore, DecodeOut.incomplete.injEq] at h
    exact h.symm
  | b0 :: b1 :: tl =>
    simp only [decodeCore] at h
    repeat' split at h
    all_goals simp_all

/-- Witness for `incomplete_preserves_buffer`: a truncated binary measurement
frame is reported incomplete with the buffer intact. -/
theorem incomplete_preserves_buffer_witness :
    decodeCore (some .GetMeasurementBinary) [48, 13, 35, 48] =
        .incomplete [48, 13, 35, 48] ∧
    ([48, 13, 35, 48] : List UInt8) = [48, 13, 35, 48] :=
  ⟨by decide,
   incomplete_preserves_buffer (some .GetMeasurementBinary) [48, 13, 35, 48]
     [48, 13, 35, 48] (by decide)⟩

/-- C8 counterexample: the map-table payload `"2,5,a,5,b"` has leading count
2 and exactly two decoded code/name pairs, `(5,"a")` and `(5,"b")`, yet
decoding it under an outstanding map query does not yield `Success` — the
consistency check compares the count against the deduplicated `HashMap`
length (1 here) and the `assert_eq!` panics. -/
theorem map_count_pairs_rejected :
    decodeCore (some (.QueryMap "primfunction"))
        [48, 13, 50, 44, 53, 44, 97, 44, 53, 44, 98, 13] = .panicked .assertMapCount ∧
    rustParseNat (2 ^ 64 - 1) ((splitCommaStr "2,5,a,5,b").headD "") = some 2 ∧
    chunksExact2 ((splitCommaStr "2,5,a,5,b").drop 1) = [("5", "a"), ("5", "b")] := by
  refine ⟨by decide, by decide, by decide⟩

/-- C8 amended: under an outstanding map query, whenever `decode` returns a
successful `Map` response, the payload's leading count equals the number of
entries of the returned map — i.e. the number of distinct codes among the
decoded pairs, a later pair overwriting an earlier one with the same code;
a payload whose leading count differs from that number is rejected (the
`assert_eq!` panics rather than returning a response). -/
theorem map_count_matches_on_success (name : String) (src : List UInt8)
    (m : ValueMap) (rest : List UInt8)
    (h : decodeCore (some (.QueryMap name)) src = .frame (.Success (some (.Map m))) rest) :
    ∃ payload cs,
      getPayload src = some payload ∧ utf8Decode payload = some cs ∧
      rustParseNat (2 ^ 64 - 1) ((splitCommaStr (String.mk cs)).headD "") =
        some (valueMapLen m) := by
  match src with
  | [] => simp [decodeCore] at h
  | [b] => simp [decodeCore] at h
  | b0 :: b1 :: tl =>
    simp only [decodeCore] at h
    split at h
    · simp at h
    split at h
    · rcases hgp : getPayload (b0 :: b1 :: tl) with _ | payload
      · rw [hgp] at h
        simp at h
      · rw [hgp] at h
        dsimp only at h
        rcases hu : utf8Decode payload with _ | cs
        · rw [hu] at h
          simp at h
        · rw [hu] at h
          dsimp only at h
          split at h
          · simp at h
          · rcases hc : rustParseNat (2 ^ 64 - 1)
                ((splitCommaStr (String.mk cs)).headD "") with _ | c
            · rw [hc] at h
              simp at h
            · rw [hc] at h
              dsimp only at h
              rcases hmi : mapInsertAll (chunksExact2 ((splitCommaStr (String.mk cs)).drop 1)) []
                  with vm | e | p
              · rw [hmi] at h
                dsimp only at h
                split at h
                · rename_i hceq
                  simp only [DecodeOut.frame.injEq, Response.Success.injEq,
                    Option.some.injEq, ResponsePayload.Map.injEq] at h
                  refine ⟨payload, cs, rfl, hu, ?_⟩
                  rw [hc, hceq, h.1]
                · simp at h
              · rw [hmi] at h
                simp at h
              · rw [hmi] at h
                simp at h
    · split at h
      · simp at h
      · split at h
        · simp at h
        · split at h
          · simp at h
          · simp at h

/-- Witness for `map_count_matches_on_success`: the payload `"2,5,a,7,b"`
decodes to a two-entry map and its leading count is 2. -/
theorem map_count_matches_witness :
    decodeCore (some (.QueryMap "x")) [48, 13, 50, 44, 53, 44, 97, 44, 55, 44, 98, 13] =
      .frame (.Success (some (.Map [(5, "a"), (7, "b")]))) [] ∧
    (∃ payload cs,
      getPayload [48, 13, 50, 44, 53, 44, 97, 44, 55, 44, 98, 13] = some payload ∧
      utf8Decode payload = some cs ∧
      rustParseNat (2 ^ 64 - 1) ((splitCommaStr (String.mk cs)).headD "") =
        some (valueMapLen [(5, "a"), (7, "b")])) :=
  ⟨by decide, map_count_matches_on_success "x" _ [(5, "a"), (7, "b")] [] (by decide)⟩

end F289
